import Mathlib

/-!
Verification development for the dBrother pore-structure extraction engine.

The Python modules `app/core/pdf_processor.py`, `app/core/pdf_processor_v2.py`
and `app/core/pdf_structured_extractor.py` are shallowly embedded below.
Python floats are modelled as exact rationals (every float literal of the
source, such as `0.1`, `1e-8`, `1e-12`, is read as the exact decimal rational
it denotes), Python strings as Lean strings operating on their character
lists (Python string indices are code-point indices, matching `List Char`
positions), Python lists as Lean lists, and a raised exception as the
`Except.error` case of an `Except` value.  `unicodedata.normalize("NFKC", s)`
is modelled as the identity, which is exact on the character repertoire the
engine manipulates (ASCII and CJK unified ideographs are NFKC-invariant).
-/

attribute [local semireducible] Rat.mul Rat.add Rat.sub Rat.inv Rat.ofScientific

set_option maxRecDepth 100000

namespace DBro

/-- Model of the `NldftData` dataclass shared verbatim by all three core
modules: one sample of the pore-size distribution series. -/
structure NldftData where
  average_pore_diameter : ℚ
  pore_integral_volume : ℚ
deriving DecidableEq

/-- Absolute value on ℚ, written out so that it evaluates in the kernel;
model of Python `abs`. -/
def ratAbs (q : ℚ) : ℚ := if q < 0 then -q else q

/-- Binary maximum on ℚ, written out so that it evaluates in the kernel;
model of Python `max` on two floats. -/
def ratMax (a b : ℚ) : ℚ := if a ≤ b then b else a

/-- Model of `math.isclose(a, b, rel_tol=1e-12, abs_tol=1e-15)` as used by
`interpolate_diameter` and `interpolate_volume` in all three modules:
`|a-b| <= max(rel_tol * max(|a|, |b|), abs_tol)`. -/
def isclose (a b : ℚ) : Bool :=
  ratAbs (a - b) ≤ ratMax ((1/10^12) * ratMax (ratAbs a) (ratAbs b)) (1/10^15)

/-- Key (sort/interpolation input) accessor used when interpolating volume to
diameter. -/
def volOf (r : NldftData) : ℚ := r.pore_integral_volume

/-- Paired-value accessor used when interpolating volume to diameter. -/
def diamOf (r : NldftData) : ℚ := r.average_pore_diameter

/-- Python `data[-1]` applied to a field, with 0 as the (unreached) value on
the empty list. -/
def lastVal (val : NldftData → ℚ) : List NldftData → ℚ
  | [] => 0
  | [x] => val x
  | _ :: x :: xs => lastVal val (x :: xs)

/-- The shared loop of `interpolate_diameter` / `interpolate_volume`
(`pdf_processor.py` 259-300, `pdf_processor_v2.py` 266-306,
`pdf_structured_extractor.py` 415-454; the two Python functions are textually
identical up to exchanging the two record fields, abstracted here by the
`key`/`val` accessors).  `lower` is the tracked last sample with key strictly
below the target; falling off the list returns `lastV`, the paired value of
the last sample of the original list (Python `data[-1]`). -/
def interpCore (key val : NldftData → ℚ) (target lastV : ℚ) :
    Option NldftData → List NldftData → ℚ
  | _, [] => lastV
  | lower, row :: rest =>
    if isclose (key row) target then val row
    else if key row < target then interpCore key val target lastV (some row) rest
    else if target < key row then
      match lower with
      | none => val row
      | some lo =>
        let dx := key row - key lo
        if dx = 0 then val lo
        else
          let k := (val row - val lo) / dx
          let b := val lo - k * key lo
          k * target + b
    else interpCore key val target lastV lower rest

/-- Model of `interpolate_diameter(target_volume, data)`: linear
interpolation on (integral volume → average diameter). -/
def interpolate_diameter (target_volume : ℚ) (data : List NldftData) : ℚ :=
  if data.isEmpty then 0
  else interpCore volOf diamOf target_volume (lastVal diamOf data) none data

/-- Model of `interpolate_volume(target_diameter, data)`: linear
interpolation on (average diameter → integral volume). -/
def interpolate_volume (target_diameter : ℚ) (data : List NldftData) : ℚ :=
  if data.isEmpty then 0
  else interpCore diamOf volOf target_diameter (lastVal volOf data) none data

theorem le_ratMax_right (a b : ℚ) : b ≤ ratMax a b := by
  rw [ratMax]
  split
  · exact le_refl b
  · exact le_of_lt (lt_of_not_le (by assumption))

theorem isclose_self (a : ℚ) : isclose a a = true := by
  rw [isclose]
  simp only [sub_self, decide_eq_true_eq]
  have h0 : ratAbs 0 = 0 := rfl
  rw [h0]
  exact le_trans (by norm_num) (le_ratMax_right _ (1/10^15))

theorem lt_of_le_of_not_isclose {a b : ℚ} (hle : a ≤ b) (h : isclose a b = false) : a < b := by
  rcases lt_or_eq_of_le hle with h' | rfl
  · exact h'
  · rw [isclose_self] at h
    exact absurd h (by simp)

theorem interpCore_skip_below (key val : NldftData → ℚ) (t lv : ℚ) :
    ∀ (pre : List NldftData) (rest : List NldftData) (lower : Option NldftData),
      (∀ x ∈ pre, isclose (key x) t = false ∧ key x < t) →
      ∃ lower', interpCore key val t lv lower (pre ++ rest) = interpCore key val t lv lower' rest := by
  intro pre
  induction pre with
  | nil => intro rest lower _; exact ⟨lower, rfl⟩
  | cons x xs ih =>
    intro rest lower h
    obtain ⟨hc, hlt⟩ := h x (by simp)
    have := ih rest (some x) (fun y hy => h y (by simp [hy]))
    simpa [interpCore, hc, hlt] using this

theorem interpCore_identity (key val : NldftData → ℚ) (t lv : ℚ)
    (pre post : List NldftData) (lower : Option NldftData) (s : NldftData)
    (hpre : ∀ x ∈ pre, isclose (key x) t = false ∧ key x < t)
    (hs : isclose (key s) t = true) :
    interpCore key val t lv lower (pre ++ s :: post) = val s := by
  obtain ⟨lower', heq⟩ := interpCore_skip_below key val t lv pre (s :: post) lower hpre
  rw [heq]
  simp [interpCore, hs]

theorem interp_identity_core (key val : NldftData → ℚ)
    (data : List NldftData)
    (hsort : data.Pairwise (fun a b => key a ≤ key b))
    (hsep : data.Pairwise (fun a b => isclose (key a) (key b) = false))
    (s : NldftData) (hmem : s ∈ data) (lv : ℚ) (lower : Option NldftData) :
    interpCore key val (key s) lv lower data = val s := by
  obtain ⟨l₁, l₂, rfl⟩ := List.append_of_mem hmem
  apply interpCore_identity
  · intro x hx
    have h₁ : key x ≤ key s := by
      rw [List.pairwise_append] at hsort
      exact hsort.2.2 x hx s (by simp)
    have h₂ : isclose (key x) (key s) = false := by
      rw [List.pairwise_append] at hsep
      exact hsep.2.2 x hx s (by simp)
    exact ⟨h₂, lt_of_le_of_not_isclose h₁ h₂⟩
  · exact isclose_self (key s)

/-- C1 (amended): for every series sorted ascending on the interpolation key
in which no two samples' keys are within the `isclose` tolerance of one
another, interpolating at a sample's key returns that sample's paired value,
exactly; in both directions. -/
theorem c1_interpolation_identity_amended :
    (∀ (data : List NldftData),
        data.Pairwise (fun a b => volOf a ≤ volOf b) →
        data.Pairwise (fun a b => isclose (volOf a) (volOf b) = false) →
        ∀ s ∈ data, interpolate_diameter (volOf s) data = diamOf s) ∧
    (∀ (data : List NldftData),
        data.Pairwise (fun a b => diamOf a ≤ diamOf b) →
        data.Pairwise (fun a b => isclose (diamOf a) (diamOf b) = false) →
        ∀ s ∈ data, interpolate_volume (diamOf s) data = volOf s) := by
  constructor
  · intro data hsort hsep s hmem
    have hne : data.isEmpty = false := by
      cases data with
      | nil => cases hmem
      | cons a l => rfl
    rw [interpolate_diameter, hne]
    simp only [Bool.false_eq_true, if_false]
    exact interp_identity_core volOf diamOf data hsort hsep s hmem _ none
  · intro data hsort hsep s hmem
    have hne : data.isEmpty = false := by
      cases data with
      | nil => cases hmem
      | cons a l => rfl
    rw [interpolate_volume, hne]
    simp only [Bool.false_eq_true, if_false]
    exact interp_identity_core diamOf volOf data hsort hsep s hmem _ none

/-- Two-sample series whose volumes 0 and 10⁻¹⁶ are strictly increasing but
within the absolute interpolation tolerance 10⁻¹⁵ of each other. -/
def tinyVolData : List NldftData := [⟨1, 0⟩, ⟨2, 1/10^16⟩]

/-- C1 counterexample: `tinyVolData` is sorted strictly ascending by
`pore_integral_volume`, the sample ⟨2, 10⁻¹⁶⟩ is in it, yet interpolating at
that sample's volume returns 1 (the other sample's diameter), which is not
within any tolerance of the sample's own diameter 2: the first loop
iteration already matches `isclose(0, 1e-16)` because both lie inside the
absolute tolerance `1e-15`. -/
theorem c1_interpolation_identity_counterexample :
    tinyVolData.Pairwise (fun a b => volOf a < volOf b) ∧
    (⟨2, 1/10^16⟩ : NldftData) ∈ tinyVolData ∧
    interpolate_diameter (volOf (⟨2, 1/10^16⟩ : NldftData)) tinyVolData = 1 ∧
    diamOf (⟨2, 1/10^16⟩ : NldftData) = 2 ∧
    isclose 1 2 = false := by
  refine ⟨?_, ?_, ?_, ?_, ?_⟩ <;> decide

/-- Witness instantiating C1 (amended) on the concrete well-separated series
[⟨1,0⟩, ⟨3,5⟩]. -/
theorem c1_interpolation_identity_witness :
    interpolate_diameter (volOf (⟨3, 5⟩ : NldftData)) [⟨1, 0⟩, ⟨3, 5⟩] = 3 ∧
    interpolate_volume (diamOf (⟨3, 5⟩ : NldftData)) [⟨1, 0⟩, ⟨3, 5⟩] = 5 := by
  constructor
  · exact c1_interpolation_identity_amended.1 [⟨1, 0⟩, ⟨3, 5⟩]
      (by decide) (by decide) ⟨3, 5⟩ (by decide)
  · exact c1_interpolation_identity_amended.2 [⟨1, 0⟩, ⟨3, 5⟩]
      (by decide) (by decide) ⟨3, 5⟩ (by decide)

theorem interpCore_head_clamp (key val : NldftData → ℚ) (t lv : ℚ)
    (d : NldftData) (rest : List NldftData) (ht : t < key d) :
    interpCore key val t lv none (d :: rest) = val d := by
  by_cases hc : isclose (key d) t = true
  · simp [interpCore, hc]
  · have h₁ : ¬ key d < t := not_lt_of_gt ht
    simp [interpCore, hc, h₁, ht]

theorem interpCore_exhaust (key val : NldftData → ℚ) (t lv : ℚ) :
    ∀ (l : List NldftData) (lower : Option NldftData),
      (∀ x ∈ l, isclose (key x) t = false ∧ key x < t) →
      interpCore key val t lv lower l = lv := by
  intro l
  induction l with
  | nil => intro lower _; rfl
  | cons x xs ih =>
    intro lower h
    obtain ⟨hc, hlt⟩ := h x (by simp)
    simpa [interpCore, hc, hlt] using ih (some x) (fun y hy => h y (by simp [hy]))

/-- C2 (amended): with a non-empty series, a target strictly below every key
returns the first sample's paired value, unconditionally; a target strictly
above every key returns the last sample's paired value provided the target is
not within the `isclose` tolerance of any key.  Both directions. -/
theorem c2_boundary_clamp_amended :
    (∀ (t : ℚ) (d : NldftData) (rest : List NldftData),
        (∀ x ∈ d :: rest, t < volOf x) →
        interpolate_diameter t (d :: rest) = diamOf d) ∧
    (∀ (t : ℚ) (data : List NldftData), data ≠ [] →
        (∀ x ∈ data, volOf x < t ∧ isclose (volOf x) t = false) →
        interpolate_diameter t data = lastVal diamOf data) ∧
    (∀ (t : ℚ) (d : NldftData) (rest : List NldftData),
        (∀ x ∈ d :: rest, t < diamOf x) →
        interpolate_volume t (d :: rest) = volOf d) ∧
    (∀ (t : ℚ) (data : List NldftData), data ≠ [] →
        (∀ x ∈ data, diamOf x < t ∧ isclose (diamOf x) t = false) →
        interpolate_volume t (data) = lastVal volOf data) := by
  refine ⟨?_, ?_, ?_, ?_⟩
  · intro t d rest h
    rw [interpolate_diameter]
    simp only [List.isEmpty_cons, Bool.false_eq_true, if_false]
    exact interpCore_head_clamp volOf diamOf t _ d rest (h d (by simp))
  · intro t data hne h
    cases data with
    | nil => exact absurd rfl hne
    | cons d rest =>
      rw [interpolate_diameter]
      simp only [List.isEmpty_cons, Bool.false_eq_true, if_false]
      exact interpCore_exhaust volOf diamOf t _ (d :: rest) none
        (fun x hx => ⟨(h x hx).2, (h x hx).1⟩)
  · intro t d rest h
    rw [interpolate_volume]
    simp only [List.isEmpty_cons, Bool.false_eq_true, if_false]
    exact interpCore_head_clamp diamOf volOf t _ d rest (h d (by simp))
  · intro t data hne h
    cases data with
    | nil => exact absurd rfl hne
    | cons d rest =>
      rw [interpolate_volume]
      simp only [List.isEmpty_cons, Bool.false_eq_true, if_false]
      exact interpCore_exhaust diamOf volOf t _ (d :: rest) none
        (fun x hx => ⟨(h x hx).2, (h x hx).1⟩)

/-- C2 counterexample: on `tinyVolData` the target 2·10⁻¹⁶ lies strictly
above the maximum volume 10⁻¹⁶, yet `interpolate_diameter` returns 1 — the
FIRST sample's diameter — because the first key 0 is within the absolute
tolerance `1e-15` of the target; the last sample's diameter is 2. -/
theorem c2_boundary_clamp_counterexample :
    tinyVolData.Pairwise (fun a b => volOf a < volOf b) ∧
    (∀ x ∈ tinyVolData, volOf x < 2/10^16) ∧
    interpolate_diameter ((2:ℚ)/10^16) tinyVolData = 1 ∧
    lastVal diamOf tinyVolData = 2 := by
  refine ⟨?_, ?_, ?_, ?_⟩ <;> decide

/-- Witness instantiating C2 (amended) on the concrete series [⟨1,0⟩, ⟨3,5⟩]
with targets -1 (below the minimum) and 6 (above the maximum). -/
theorem c2_boundary_clamp_witness :
    interpolate_diameter (-1) [⟨1, 0⟩, ⟨3, 5⟩] = 1 ∧
    interpolate_diameter 6 [⟨1, 0⟩, ⟨3, 5⟩] = 3 ∧
    interpolate_volume 0 [⟨1, 0⟩, ⟨3, 5⟩] = 0 ∧
    interpolate_volume 4 [⟨1, 0⟩, ⟨3, 5⟩] = 5 := by
  refine ⟨?_, ?_, ?_, ?_⟩
  · exact c2_boundary_clamp_amended.1 (-1) ⟨1, 0⟩ [⟨3, 5⟩] (by decide)
  · exact c2_boundary_clamp_amended.2.1 6 [⟨1, 0⟩, ⟨3, 5⟩] (by decide) (by decide)
  · exact c2_boundary_clamp_amended.2.2.1 0 ⟨1, 0⟩ [⟨3, 5⟩] (by decide)
  · exact c2_boundary_clamp_amended.2.2.2 4 [⟨1, 0⟩, ⟨3, 5⟩] (by decide) (by decide)

/-- C10: on the empty series both interpolation primitives return exactly 0
for every target, rather than raising. -/
theorem c10_empty_series_interpolation (t : ℚ) :
    interpolate_diameter t [] = 0 ∧ interpolate_volume t [] = 0 :=
  ⟨rfl, rfl⟩

/-! ### Python string primitives

Strings are manipulated on their character lists; Python string indices are
code-point indices, which coincide with `List Char` positions. -/

/-- Unicode whitespace as recognised by Python `str.strip()` and the regex
class `\s`. -/
def pyIsSpace (c : Char) : Bool :=
  decide ((0x09 ≤ c.toNat ∧ c.toNat ≤ 0x0D) ∨ (0x1C ≤ c.toNat ∧ c.toNat ≤ 0x1F) ∨
    c.toNat = 0x20 ∨ c.toNat = 0x85 ∨ c.toNat = 0xA0 ∨ c.toNat = 0x1680 ∨
    (0x2000 ≤ c.toNat ∧ c.toNat ≤ 0x200A) ∨ c.toNat = 0x2028 ∨ c.toNat = 0x2029 ∨
    c.toNat = 0x202F ∨ c.toNat = 0x205F ∨ c.toNat = 0x3000)

/-- Python `str.strip()` on a character list. -/
def pyStripChars (cs : List Char) : List Char :=
  ((cs.dropWhile pyIsSpace).reverse.dropWhile pyIsSpace).reverse

/-- Python `str.strip()`. -/
def pyStrip (s : String) : String := ⟨pyStripChars s.data⟩

/-- Line-break characters recognised by Python `str.splitlines()` (besides
the two-character sequence CR LF, handled separately). -/
def isLineBreak (c : Char) : Bool :=
  decide (c.toNat = 0x0A ∨ c.toNat = 0x0D ∨ c.toNat = 0x0B ∨ c.toNat = 0x0C ∨
    c.toNat = 0x1C ∨ c.toNat = 0x1D ∨ c.toNat = 0x1E ∨ c.toNat = 0x85 ∨
    c.toNat = 0x2028 ∨ c.toNat = 0x2029)

/-- Worker for `str.splitlines()`: `cur` holds the current line reversed. -/
def splitlinesGo (cur : List Char) : List Char → List (List Char)
  | [] => if cur = [] then [] else [cur.reverse]
  | '\r' :: '\n' :: rest => cur.reverse :: splitlinesGo [] rest
  | c :: rest =>
    if isLineBreak c then cur.reverse :: splitlinesGo [] rest
    else splitlinesGo (c :: cur) rest

/-- Python `str.splitlines()` returning lines as strings. -/
def pySplitlines (s : String) : List String :=
  (splitlinesGo [] s.data).map fun cs => ⟨cs⟩

/-- First index at or after `i` where `pat` occurs in the list; model of
Python `str.find` (with `none` for Python's -1). -/
def findSubGo (pat : List Char) : List Char → Nat → Option Nat
  | [], i => if pat = [] then some i else none
  | c :: rest, i => if pat.isPrefixOf (c :: rest) then some i else findSubGo pat rest (i + 1)

/-- Python `text.find(pat)`. -/
def pyFind (cs pat : List Char) : Option Nat := findSubGo pat cs 0

/-- Python `text.find(pat, start)`. -/
def pyFindFrom (cs pat : List Char) (start : Nat) : Option Nat :=
  findSubGo pat (cs.drop start) start

/-- Python `pat in text`. -/
def pyContains (cs pat : List Char) : Bool := (pyFind cs pat).isSome

/-- Python slice `text[a:b]` (clamping like Python). -/
def pySlice (cs : List Char) (a b : Nat) : List Char := (cs.drop a).take (b - a)

/-- Fuel-driven worker for `str.replace`; the fuel (initially the list
length) dominates the number of steps since each step consumes at least one
character. -/
def pyReplaceGo (pat rep : List Char) : Nat → List Char → List Char
  | _, [] => []
  | 0, cs => cs
  | fuel+1, c :: rest =>
    if pat ≠ [] ∧ pat.isPrefixOf (c :: rest) then
      rep ++ pyReplaceGo pat rep fuel (rest.drop (pat.length - 1))
    else c :: pyReplaceGo pat rep fuel rest

/-- Python `text.replace(pat, rep)` for non-empty `pat` (every use below has
a non-empty pattern). -/
def pyReplace (cs pat rep : List Char) : List Char := pyReplaceGo pat rep cs.length cs

/-- ASCII lowercasing, the effect of Python `str.lower()` on the character
repertoire manipulated here (CJK ideographs are unaffected by `lower`). -/
def pyLower (cs : List Char) : List Char := cs.map Char.toLower

/-- Effect of `re.sub(r"\s+", "", s)` (`SPACE_RE.sub` in the structured
extractor): remove every whitespace character. -/
def stripAllSpace (cs : List Char) : List Char := cs.filter fun c => !(pyIsSpace c)

/-- Consume one-or-more decimal digits (`\d+`); `none` when the first
character is not a digit, otherwise the remainder after the maximal run. -/
def digits1 : List Char → Option (List Char)
  | [] => none
  | c :: rest => if c.isDigit then some ((c :: rest).dropWhile Char.isDigit) else none

/-- Consume `[+-]?` followed by a required digit test made by the caller. -/
def eatSign : List Char → List Char
  | [] => []
  | c :: rest => if c = '+' ∨ c = '-' then rest else c :: rest

/-- Consume the optional fraction group `(?:\.\d+)?`: when a dot is present
but no digit follows, the group fails and the dot is left in place (the
caller's subsequent requirement then fails exactly as Python's backtracking
does). -/
def fracOpt : List Char → List Char
  | '.' :: rest =>
    match digits1 rest with
    | some cs => cs
    | none => '.' :: rest
  | cs => cs

/-- Consume the optional exponent group `(?:[eE][+-]?\d+)?`; left unconsumed
when incomplete, as in Python. -/
def expOpt : List Char → List Char
  | [] => []
  | c :: rest =>
    if c = 'e' ∨ c = 'E' then
      match digits1 (eatSign rest) with
      | some cs => cs
      | none => c :: rest
    else c :: rest

/-- Full match of `_float_re` = `^[+-]?\d+(?:\.\d+)?(?:[eE][+-]?\d+)?$`
(`pdf_processor.py` line 212, `pdf_processor_v2.py` line 197). -/
def matchFloatRe (cs : List Char) : Bool :=
  match digits1 (eatSign cs) with
  | none => false
  | some cs => expOpt (fracOpt cs) = []

/-- Full match of the v1 range regex `^\d+(?:\.\d+)?[-–—]\d+(?:\.\d+)?$`
(`pdf_processor.py` line 214). -/
def matchRangeRe (cs : List Char) : Bool :=
  match digits1 cs with
  | none => false
  | some cs =>
    match fracOpt cs with
    | c :: rest =>
      if c = '-' ∨ c = '–' ∨ c = '—' then
        match digits1 rest with
        | none => false
        | some cs₂ => fracOpt cs₂ = []
      else false
    | [] => false

/-- Full match of the v2 range regex `^\d+(?:\.\d+)?\s*-\s*\d+(?:\.\d+)?$`
(`pdf_processor_v2.py` line 198). -/
def matchRangeReV2 (cs : List Char) : Bool :=
  match digits1 cs with
  | none => false
  | some cs =>
    match (fracOpt cs).dropWhile pyIsSpace with
    | '-' :: rest =>
      match digits1 (rest.dropWhile pyIsSpace) with
      | none => false
      | some cs₂ => fracOpt cs₂ = []
    | _ => false

/-- Digit run to a natural number. -/
def digitsToNat (cs : List Char) : Nat :=
  cs.foldl (fun n c => n * 10 + (c.toNat - 48)) 0

/-- Model of Python `float(s)` on finite decimal/scientific literals
(optional sign, digits with optional fraction, optional exponent, optional
surrounding whitespace).  The special spellings `inf`/`nan` and digit
underscores, which never occur in the engine's numeric strings, are not
modelled.  `none` models `ValueError`. -/
def pyFloat? (s : String) : Option ℚ :=
  let cs := pyStripChars s.data
  let (sgn, cs) :=
    match cs with
    | '+' :: rest => ((1 : ℚ), rest)
    | '-' :: rest => ((-1 : ℚ), rest)
    | _ => ((1 : ℚ), cs)
  let (ip, cs) := cs.span Char.isDigit
  let (fp, cs) :=
    match cs with
    | '.' :: rest =>
      let (f, cs') := rest.span Char.isDigit
      (some f, cs')
    | _ => (none, cs)
  if ip = [] ∧ (fp.getD []) = [] then none
  else
    let mant : ℚ := (digitsToNat ip : ℚ) +
      (digitsToNat (fp.getD []) : ℚ) / 10 ^ (fp.getD []).length
    match cs with
    | [] => some (sgn * mant)
    | c :: rest =>
      if c = 'e' ∨ c = 'E' then
        let (esgn, rest) :=
          match rest with
          | '+' :: r => (true, r)
          | '-' :: r => (false, r)
          | _ => (true, rest)
        let (ed, rest) := rest.span Char.isDigit
        if ed = [] ∨ rest ≠ [] then none
        else if esgn then some (sgn * mant * 10 ^ digitsToNat ed)
        else some (sgn * mant / 10 ^ digitsToNat ed)
      else none

/-! ### Stable sorting

Python `list.sort(key=...)` is a stable ascending sort; any stable sorting
algorithm computes the same permutation, modelled here by stable insertion
sort. -/

/-- Insert `x` behind every element already ≤ it, preserving encounter order
among equal keys. -/
def stableInsert {α : Type} (le : α → α → Bool) (x : α) : List α → List α
  | [] => [x]
  | y :: ys => if le y x then y :: stableInsert le x ys else x :: y :: ys

/-- Model of Python `list.sort` with a boolean key comparison. -/
def pySort {α : Type} (le : α → α → Bool) (l : List α) : List α :=
  l.foldl (fun acc x => stableInsert le x acc) []

theorem mem_stableInsert {α : Type} (le : α → α → Bool) (x : α) :
    ∀ (l : List α) (a : α), a ∈ stableInsert le x l ↔ a = x ∨ a ∈ l := by
  intro l
  induction l with
  | nil => intro a; simp [stableInsert]
  | cons y ys ih =>
    intro a
    rw [stableInsert]
    split
    · rw [List.mem_cons, ih a, List.mem_cons]
      tauto
    · rw [List.mem_cons]

theorem stableInsert_sorted {α : Type} (le : α → α → Bool)
    (htot : ∀ a b, le a b = false → le b a = true)
    (htrans : ∀ a b c, le a b = true → le b c = true → le a c = true)
    (x : α) :
    ∀ (l : List α), l.Pairwise (fun a b => le a b = true) →
      (stableInsert le x l).Pairwise (fun a b => le a b = true) := by
  intro l
  induction l with
  | nil => intro _; simp [stableInsert]
  | cons y ys ih =>
    intro hp
    rw [List.pairwise_cons] at hp
    rw [stableInsert]
    split
    · rw [List.pairwise_cons]
      refine ⟨?_, ih hp.2⟩
      intro a ha
      rw [mem_stableInsert] at ha
      rcases ha with rfl | ha
      · assumption
      · exact hp.1 a ha
    · rw [List.pairwise_cons]
      have hxy : le x y = true := htot y x (by simp_all)
      refine ⟨?_, List.pairwise_cons.mpr hp⟩
      intro a ha
      rcases List.mem_cons.mp ha with rfl | ha
      · exact hxy
      · exact htrans x y a hxy (hp.1 a ha)

theorem pySort_sorted {α : Type} (le : α → α → Bool)
    (htot : ∀ a b, le a b = false → le b a = true)
    (htrans : ∀ a b c, le a b = true → le b c = true → le a c = true)
    (l : List α) :
    (pySort le l).Pairwise (fun a b => le a b = true) := by
  suffices h : ∀ (l acc : List α), acc.Pairwise (fun a b => le a b = true) →
      (l.foldl (fun acc x => stableInsert le x acc) acc).Pairwise
        (fun a b => le a b = true) by
    exact h l [] (by simp)
  intro l
  induction l with
  | nil => intro acc h; simpa using h
  | cons x xs ih =>
    intro acc h
    exact ih (stableInsert le x acc) (stableInsert_sorted le htot htrans x acc h)

/-- Sort key of v1/v2 `parse_nldft_pairs`: `key=lambda r: r.pore_integral_volume`. -/
def volLeB (a b : NldftData) : Bool := volOf a ≤ volOf b

/-- Sort key of the structured extractor:
`key=lambda r: (r.pore_integral_volume, r.average_pore_diameter)` under
Python tuple comparison. -/
def pairLeB (a b : NldftData) : Bool :=
  decide (volOf a < volOf b ∨ (volOf a = volOf b ∧ diamOf a ≤ diamOf b))

theorem volLeB_total (a b : NldftData) (h : volLeB a b = false) : volLeB b a = true := by
  simp only [volLeB, decide_eq_false_iff_not, decide_eq_true_eq, not_le] at h ⊢
  exact le_of_lt h

theorem volLeB_trans (a b c : NldftData) (h₁ : volLeB a b = true) (h₂ : volLeB b c = true) :
    volLeB a c = true := by
  simp only [volLeB, decide_eq_true_eq] at h₁ h₂ ⊢
  exact le_trans h₁ h₂

theorem pairLeB_total (a b : NldftData) (h : pairLeB a b = false) : pairLeB b a = true := by
  simp only [pairLeB, decide_eq_false_iff_not, decide_eq_true_eq] at h ⊢
  push_neg at h
  rcases lt_trichotomy (volOf a) (volOf b) with h' | h' | h'
  · exact absurd h' (not_lt.mpr h.1)
  · exact Or.inr ⟨h'.symm, le_of_lt (h.2 h')⟩
  · exact Or.inl h'

theorem pairLeB_trans (a b c : NldftData) (h₁ : pairLeB a b = true) (h₂ : pairLeB b c = true) :
    pairLeB a c = true := by
  simp only [pairLeB, decide_eq_true_eq] at h₁ h₂ ⊢
  rcases h₁ with h₁ | ⟨h₁e, h₁d⟩ <;> rcases h₂ with h₂ | ⟨h₂e, h₂d⟩
  · exact Or.inl (lt_trans h₁ h₂)
  · exact Or.inl (h₂e ▸ h₁)
  · exact Or.inl (h₁e ▸ h₂)
  · exact Or.inr ⟨h₁e.trans h₂e, le_trans h₁d h₂d⟩

/-! ### Backend A, v1: the tolerant line-stream state machine -/

/-- Number of consecutive blank (whitespace-only) lines at the head. -/
def skipBlanks : List String → Nat
  | [] => 0
  | l :: ls => if pyStrip l = "" then skipBlanks ls + 1 else 0

/-- Model of the inner helper `next_nonempty(idx)` of v1 `parse_nldft_pairs`
(`pdf_processor.py` 216-219): first index ≥ `idx` whose line is not blank,
or `lines.length` when none remains. -/
def nextNonempty (lines : List String) (idx : Nat) : Nat :=
  idx + skipBlanks (lines.drop idx)

/-- The v1 scan loop (`pdf_processor.py` 221-252), with explicit fuel: every
iteration advances the scan index by at least one, so any fuel exceeding
`lines.length` makes the fuel guard unreachable (`parseGoV1_fuel` below).
States: range token, average diameter, differential volume (validated,
discarded), integral volume, optional trailing field (skipped).  A failed
required field advances the index by exactly one and re-enters the
range-token state. -/
def parseGoV1 (lines : List String) : Nat → Nat → List NldftData → List NldftData
  | 0, _, data => data
  | fuel+1, i, data =>
    if i < lines.length then
      if matchRangeRe (pyStrip (lines.getD i "")).data then
        let j := nextNonempty lines (i+1)
        if lines.length ≤ j then data
        else if matchFloatRe (pyStrip (lines.getD j "")).data = false then
          parseGoV1 lines fuel (i+1) data
        else
          let k := nextNonempty lines (j+1)
          if lines.length ≤ k then data
          else if matchFloatRe (pyStrip (lines.getD k "")).data = false then
            parseGoV1 lines fuel (i+1) data
          else
            let m := nextNonempty lines (k+1)
            if lines.length ≤ m then data
            else if matchFloatRe (pyStrip (lines.getD m "")).data = false then
              parseGoV1 lines fuel (i+1) data
            else
              let n := nextNonempty lines (m+1)
              let data' :=
                match pyFloat? (pyStrip (lines.getD j "")), pyFloat? (pyStrip (lines.getD m "")) with
                | some a, some b => data ++ [⟨a, b⟩]
                | _, _ => data
              parseGoV1 lines fuel ((if m < n then n else m) + 1) data'
      else parseGoV1 lines fuel (i+1) data
    else data

/-- Model of v1 `parse_nldft_pairs` from the line list of the located NLDFT
block onward (`pdf_processor.py` 210-255): the tolerant scan followed by the
stable sort on `pore_integral_volume` alone. -/
def parse_nldft_lines (lines : List String) : List NldftData :=
  pySort volLeB (parseGoV1 lines (lines.length + 1) 0 [])

theorem le_nextNonempty (lines : List String) (idx : Nat) : idx ≤ nextNonempty lines idx :=
  Nat.le_add_right idx _

theorem parseGoV1_fuel (lines : List String) :
    ∀ (fuel i : Nat) (data : List NldftData), lines.length ≤ i + fuel →
      parseGoV1 lines (fuel+1) i data = parseGoV1 lines fuel i data := by
  intro fuel
  induction fuel with
  | zero =>
    intro i data h
    rw [parseGoV1, parseGoV1]
    simp only [Nat.add_zero] at h
    rw [if_neg (by omega)]
  | succ fuel ih =>
    intro i data h
    conv_lhs => rw [parseGoV1]
    conv_rhs => rw [parseGoV1]
    by_cases h₁ : i < lines.length
    · rw [if_pos h₁, if_pos h₁]
      have hskip : ∀ d, parseGoV1 lines (fuel+1) (i+1) d = parseGoV1 lines fuel (i+1) d :=
        fun d => ih (i+1) d (by omega)
      by_cases h₂ : matchRangeRe (pyStrip (lines.getD i "")).data = true
      · rw [if_pos h₂, if_pos h₂]
        by_cases h₃ : lines.length ≤ nextNonempty lines (i+1)
        · rw [if_pos h₃, if_pos h₃]
        · rw [if_neg h₃, if_neg h₃]
          by_cases h₄ : matchFloatRe (pyStrip
              (lines.getD (nextNonempty lines (i+1)) "")).data = false
          · rw [if_pos h₄, if_pos h₄, hskip]
          · rw [if_neg h₄, if_neg h₄]
            by_cases h₅ : lines.length ≤ nextNonempty lines (nextNonempty lines (i+1) + 1)
            · rw [if_pos h₅, if_pos h₅]
            · rw [if_neg h₅, if_neg h₅]
              by_cases h₆ : matchFloatRe (pyStrip (lines.getD
                  (nextNonempty lines (nextNonempty lines (i+1) + 1)) "")).data = false
              · rw [if_pos h₆, if_pos h₆, hskip]
              · rw [if_neg h₆, if_neg h₆]
                by_cases h₇ : lines.length ≤ nextNonempty lines
                    (nextNonempty lines (nextNonempty lines (i+1) + 1) + 1)
                · rw [if_pos h₇, if_pos h₇]
                · rw [if_neg h₇, if_neg h₇]
                  by_cases h₈ : matchFloatRe (pyStrip (lines.getD (nextNonempty lines
                      (nextNonempty lines (nextNonempty lines (i+1) + 1) + 1)) "")).data = false
                  · rw [if_pos h₈, if_pos h₈, hskip]
                  · rw [if_neg h₈, if_neg h₈]
                    apply ih
                    have ha := le_nextNonempty lines (i+1)
                    have hb := le_nextNonempty lines (nextNonempty lines (i+1) + 1)
                    have hc := le_nextNonempty lines
                      (nextNonempty lines (nextNonempty lines (i+1) + 1) + 1)
                    have hd := le_nextNonempty lines
                      (nextNonempty lines (nextNonempty lines (nextNonempty lines (i+1) + 1) + 1) + 1)
                    split <;> omega
      · rw [if_neg h₂, if_neg h₂, hskip]
    · rw [if_neg h₁, if_neg h₁]

/-- Boolean rendering of "a required field of the candidate row starting at
line `i` fails to parse as a well-formed decimal": the average-diameter,
differential-volume or integral-volume field (each located by blank-line
skipping and in range) fails `_float_re`. -/
def requiredFieldFails (lines : List String) (i : Nat) : Bool :=
  let j := nextNonempty lines (i+1)
  decide (j < lines.length) &&
    (if matchFloatRe (pyStrip (lines.getD j "")).data = false then true
     else
       let k := nextNonempty lines (j+1)
       decide (k < lines.length) &&
         (if matchFloatRe (pyStrip (lines.getD k "")).data = false then true
          else
            let m := nextNonempty lines (k+1)
            decide (m < lines.length) &&
              !matchFloatRe (pyStrip (lines.getD m "")).data))

/-- Line stream carrying one malformed row (non-numeric average-diameter
field "abc") between two well-formed five-line rows. -/
def malformedRowStream : List String :=
  ["1-2", "1.5", "0.01", "0.1", "q",
   "2-3", "abc", "0.02", "0.2", "q",
   "3-4", "2.5", "0.03", "0.3", "q"]

/-- C4: whenever a candidate row's required field fails to parse (the row's
range token matched), the scan does not abort: resuming the machine at line
`i` produces exactly the same result as resuming at line `i+1` in the
range-token state, with the accumulated samples untouched.  Moreover, on the
concrete stream with one malformed row between two well-formed rows the
parse yields exactly the two well-formed samples. -/
theorem c4_tolerant_recovery :
    (∀ (lines : List String) (i : Nat) (data : List NldftData),
        i < lines.length →
        matchRangeRe (pyStrip (lines.getD i "")).data = true →
        requiredFieldFails lines i = true →
        parseGoV1 lines (lines.length + 1) i data =
          parseGoV1 lines (lines.length + 1) (i + 1) data) ∧
    parse_nldft_lines malformedRowStream = [⟨3/2, 1/10⟩, ⟨5/2, 3/10⟩] := by
  constructor
  · intro lines i data hi hr hfail
    have hfuel : ∀ d, parseGoV1 lines (lines.length + 1) (i+1) d =
        parseGoV1 lines lines.length (i+1) d :=
      fun d => parseGoV1_fuel lines lines.length (i+1) d (by omega)
    rw [hfuel]
    conv_lhs => rw [parseGoV1]
    rw [if_pos hi, if_pos hr]
    simp only [requiredFieldFails, Bool.and_eq_true, decide_eq_true_eq] at hfail
    obtain ⟨hj, hrest⟩ := hfail
    rw [if_neg (by omega)]
    by_cases havg : matchFloatRe (pyStrip (lines.getD (nextNonempty lines (i+1)) "")).data = false
    · rw [if_pos havg]
    · rw [if_neg havg]
      rw [if_neg havg] at hrest
      simp only [Bool.and_eq_true, decide_eq_true_eq] at hrest
      obtain ⟨hk, hrest⟩ := hrest
      rw [if_neg (by omega)]
      by_cases hdiff : matchFloatRe (pyStrip
          (lines.getD (nextNonempty lines (nextNonempty lines (i+1) + 1)) "")).data = false
      · rw [if_pos hdiff]
      · rw [if_neg hdiff]
        rw [if_neg hdiff] at hrest
        simp only [Bool.and_eq_true, decide_eq_true_eq, Bool.not_eq_true'] at hrest
        obtain ⟨hm, hint⟩ := hrest
        rw [if_neg (by omega), if_pos hint]
  · decide

/-- Witness instantiating C4's skip property at the malformed row of the
concrete stream (row starting at line 5, whose average-diameter field "abc"
fails). -/
theorem c4_tolerant_recovery_witness :
    parseGoV1 malformedRowStream (malformedRowStream.length + 1) 5 [⟨3/2, 1/10⟩] =
      parseGoV1 malformedRowStream (malformedRowStream.length + 1) 6 [⟨3/2, 1/10⟩] :=
  c4_tolerant_recovery.1 malformedRowStream 5 [⟨3/2, 1/10⟩]
    (by decide) (by decide) (by decide)

/-! ### The NUM_RE numeric token and the number-with-unit pattern

The scattered numeric regex `[+-]?\d[\d,]*\.?\d*(?:[eE][+-]?\d+)?` (called
`NUM_RE` in the structured extractor and written inline in the processors'
number-with-unit patterns) is matched by deterministic greedy consumption;
this coincides with Python's backtracking search for this pattern because no
consumed character class overlaps what the pattern may require next. -/

/-- Consume the optional exponent group `(?:[eE][+-]?\d+)?`, returning the
consumed characters and the remainder; an incomplete exponent is left
unconsumed, as under Python backtracking. -/
def expConsume : List Char → List Char × List Char
  | [] => ([], [])
  | c :: rest =>
    if c = 'e' ∨ c = 'E' then
      match rest with
      | s :: rest' =>
        if s = '+' ∨ s = '-' then
          let (d, cs') := rest'.span Char.isDigit
          if d = [] then ([], c :: rest) else (c :: s :: d, cs')
        else
          let (d, cs') := rest.span Char.isDigit
          if d = [] then ([], c :: rest) else (c :: d, cs')
      | [] => ([], [c])
    else ([], c :: rest)

/-- Consume the tail of `NUM_RE` after sign and first digit (given in `pre`):
`[\d,]*\.?\d*(?:[eE][+-]?\d+)?`.  Returns (matched characters, remainder). -/
def numTailConsume (pre cs : List Char) : List Char × List Char :=
  let (a, cs₁) := cs.span fun c => c.isDigit || c == ','
  let (b, cs₂) :=
    match cs₁ with
    | '.' :: rest =>
      let (f, cs') := rest.span Char.isDigit
      ('.' :: f, cs')
    | _ => ([], cs₁)
  let (e, cs₃) := expConsume cs₂
  (pre ++ a ++ b ++ e, cs₃)

/-- Match `NUM_RE` anchored at the head of the list: `none`, or the matched
characters together with the remainder. -/
def matchNumAt : List Char → Option (List Char × List Char)
  | [] => none
  | c :: rest =>
    if c.isDigit then some (numTailConsume [c] rest)
    else if c = '+' ∨ c = '-' then
      match rest with
      | d :: rest' => if d.isDigit then some (numTailConsume [c, d] rest') else none
      | [] => none
    else none

/-- Leftmost `NUM_RE` match in the list (Python `NUM_RE.search(...).group(0)`). -/
def numSearch : List Char → Option (List Char)
  | [] => none
  | c :: rest =>
    match matchNumAt (c :: rest) with
    | some (m, _) => some m
    | none => numSearch rest

/-- Case-insensitive literal prefix test (regex `IGNORECASE` on a literal). -/
def ciPrefix (pat cs : List Char) : Bool :=
  (pyLower pat).isPrefixOf (pyLower cs)

/-- Match the number-with-unit pattern `NUM\s*\(unit\)` (with a literal unit,
as in every call site: the unit arguments `m\^2/g`, `cm\^3/g`, `nm` are
regex-escaped literals) anchored at the head: returns the `NUM` capture
group and the total matched length.  `ci` selects the `IGNORECASE` variant
used by v2's `_find_near`. -/
def matchNumUnitAt (ci : Bool) (unit cs : List Char) : Option (List Char × Nat) :=
  match matchNumAt cs with
  | none => none
  | some (g, rest) =>
    let ws := rest.takeWhile pyIsSpace
    let rest₂ := rest.dropWhile pyIsSpace
    match rest₂ with
    | '(' :: r₃ =>
      if (if ci then ciPrefix unit r₃ else unit.isPrefixOf r₃) then
        match r₃.drop unit.length with
        | ')' :: _ => some (g, g.length + ws.length + 1 + unit.length + 1)
        | _ => none
      else none
    | _ => none

/-- Fuel-driven `finditer` over the number-with-unit pattern: non-overlapping
matches in scan order, as (start, end, group 1) triples.  Each step advances
by at least one character, so fuel = length suffices. -/
def numUnitGo (ci : Bool) (unit : List Char) : Nat → List Char → Nat → List (Nat × Nat × List Char)
  | 0, _, _ => []
  | _, [], _ => []
  | fuel+1, c :: rest, i =>
    match matchNumUnitAt ci unit (c :: rest) with
    | some (g, len) => (i, i + len, g) :: numUnitGo ci unit fuel (rest.drop (len - 1)) (i + len)
    | none => numUnitGo ci unit fuel rest (i + 1)

/-- All matches of `NUM\s*\(unit\)` in the text. -/
def numUnitMatches (ci : Bool) (unit cs : List Char) : List (Nat × Nat × List Char) :=
  numUnitGo ci unit cs.length cs 0

/-- Fuel-driven `finditer` over a regex-escaped literal keyword:
non-overlapping occurrence start positions in scan order. -/
def litMatchesGo (pat : List Char) : Nat → List Char → Nat → List Nat
  | 0, _, _ => []
  | _, [], _ => []
  | fuel+1, c :: rest, i =>
    if pat ≠ [] ∧ pat.isPrefixOf (c :: rest) then
      i :: litMatchesGo pat fuel (rest.drop (pat.length - 1)) (i + pat.length)
    else litMatchesGo pat fuel rest (i + 1)

/-- All non-overlapping occurrences of a literal pattern (Python
`re.finditer(re.escape(pat), text)` start positions). -/
def litMatches (cs pat : List Char) : List Nat := litMatchesGo pat cs.length cs 0

/-! ### Anchor-proximity value locators (`extract_value_near`,
`extract_value_near_any`) -/

/-- The v1 reference-anchor distance (`pdf_processor.py` 105-116):
`abs(kw_pos - ref_pos)`, halved whenever the keyword occurrence lies strictly
after the reference occurrence. -/
def discountedDist (kwPos refPos : Nat) : ℚ :=
  let d := ratAbs ((kwPos : ℚ) - (refPos : ℚ))
  if refPos < kwPos then d * (1/2) else d

/-- Candidate (distance, keyword position) pairs in the exact nested
iteration order of the v1 source: reference occurrences outer, keyword
occurrences inner. -/
def anchorCands (ms rms : List Nat) : List (ℚ × Nat) :=
  rms.foldl (fun acc r => acc ++ ms.map fun k => (discountedDist k r, k)) []

/-- Python's strict-`<` running-minimum update, which keeps the first
occurrence of the minimal first component. -/
def keepMinFst {α : Type} (c : ℚ × α) (l : List (ℚ × α)) : ℚ × α :=
  l.foldl (fun best x => if x.1 < best.1 then x else best) c

/-- The v1 anchor choice when a reference keyword was found: the keyword
occurrence of minimal (discounted) distance, first wins on ties; `first` is
the fallback (never used when candidates exist). -/
def bestAnchor (ms rms : List Nat) (first : Nat) : Nat :=
  match anchorCands ms rms with
  | [] => first
  | c :: cs => (keepMinFst c cs).2

/-- Model of v1 `extract_value_near(text, keyword, unit_regex, window,
reference_keyword)` (`pdf_processor.py` 76-143), for literal unit patterns. -/
def extract_value_near (text keyword unit : String) (window : Nat)
    (reference_keyword : Option String) : String :=
  let cs := text.data
  let ms := litMatches cs keyword.data
  match ms with
  | [] => ""
  | m0 :: _ =>
    let pos :=
      match reference_keyword with
      | none => m0
      | some ref =>
        let rms := litMatches cs ref.data
        if rms.isEmpty then m0 else bestAnchor ms rms m0
    let start := pos - window / 2
    let stop := min cs.length (pos + window / 2)
    let segment := pySlice cs start stop
    let rel : ℚ := (pos : ℚ) - (start : ℚ)
    let cands := (numUnitMatches false unit.data segment).map
      fun t => (ratAbs (((t.1 : ℚ) + (t.2.1 : ℚ)) / 2 - rel), t.2.2)
    match cands with
    | [] => ""
    | c :: rest => ⟨pyReplace (keepMinFst c rest).2 [','] []⟩

/-- Model of v2 `_find_near` (`pdf_processor_v2.py` 89-104; `IGNORECASE`). -/
def findNearV2 (cs : List Char) (anchorPos : Nat) (unit : List Char) (window : Nat) :
    Option String :=
  let start := anchorPos - window / 2
  let stop := min cs.length (anchorPos + window / 2)
  let segment := pySlice cs start stop
  let rel : ℚ := (anchorPos : ℚ) - (start : ℚ)
  let cands := (numUnitMatches true unit segment).map
    fun t => (ratAbs (((t.1 : ℚ) + (t.2.1 : ℚ)) / 2 - rel), ⟨pyReplace t.2.2 [','] []⟩)
  match cands with
  | [] => none
  | c :: rest => some ((keepMinFst c rest).2 : String)

/-- Integer absolute value, written out for kernel evaluation. -/
def intAbs (z : ℤ) : ℤ := if z < 0 then -z else z

/-- Python tuple comparison `(d, l) < (d', l')` on integer pairs. -/
def scoreLt (a b : ℤ × ℤ) : Bool := decide (a.1 < b.1 ∨ (a.1 = b.1 ∧ a.2 < b.2))

/-- Model of v2 `extract_value_near_any(text, keywords, unit_regex, window,
reference_keyword)` (`pdf_processor_v2.py` 106-133): the distance to the
reference is NOT discounted; score is `(dist, -len(kw))` under tuple order,
strict-`<` update (first wins on ties). -/
def extract_value_near_any (text : String) (keywords : List String) (unit : String)
    (window : Nat) (reference_keyword : Option String) : String :=
  let cs := text.data
  let refPos : Option Nat :=
    match reference_keyword with
    | none => none
    | some ref => pyFind cs ref.data
  let best : Option ((ℤ × ℤ) × String) :=
    keywords.foldl (fun best kw =>
      (litMatches cs kw.data).foldl (fun best pos =>
        let dist : ℤ :=
          match refPos with
          | some rp => intAbs ((pos : ℤ) - (rp : ℤ))
          | none => 0
        match findNearV2 cs pos unit.data window with
        | none => best
        | some val =>
          let score : ℤ × ℤ := (dist, -(kw.length : ℤ))
          match best with
          | none => some (score, val)
          | some b => if scoreLt score b.1 then some (score, val) else best) best) none
  match best with
  | none => ""
  | some b => b.2

theorem keepMinFst_spec {α : Type} :
    ∀ (l : List (ℚ × α)) (c : ℚ × α),
      (keepMinFst c l = c ∨ keepMinFst c l ∈ l) ∧
      (keepMinFst c l).1 ≤ c.1 ∧ ∀ x ∈ l, (keepMinFst c l).1 ≤ x.1 := by
  intro l
  induction l with
  | nil => intro c; exact ⟨Or.inl rfl, le_refl _, by simp⟩
  | cons y ys ih =>
    intro c
    have hstep : keepMinFst c (y :: ys) = keepMinFst (if y.1 < c.1 then y else c) ys := rfl
    obtain ⟨hmem, hle, hall⟩ := ih (if y.1 < c.1 then y else c)
    rw [hstep]
    refine ⟨?_, ?_, ?_⟩
    · rcases hmem with h | h
      · rw [h]
        split
        · exact Or.inr (by simp)
        · exact Or.inl rfl
      · exact Or.inr (by simp [h])
    · refine le_trans hle ?_
      split
      · exact le_of_lt (by assumption)
      · exact le_refl _
    · intro x hx
      rcases List.mem_cons.mp hx with rfl | hx
      · refine le_trans hle ?_
        split
        · exact le_refl _
        · exact le_of_not_lt (by assumption)
      · exact hall x hx

theorem mem_foldl_append {α β : Type} (f : α → List β) :
    ∀ (l : List α) (init : List β) (x : β),
      x ∈ l.foldl (fun acc r => acc ++ f r) init ↔ x ∈ init ∨ ∃ r ∈ l, x ∈ f r := by
  intro l
  induction l with
  | nil => intro init x; simp
  | cons a as ih =>
    intro init x
    rw [List.foldl_cons, ih]
    simp only [List.mem_append, List.mem_cons]
    constructor
    · rintro ((h | h) | ⟨r, hr, hx⟩)
      · exact Or.inl h
      · exact Or.inr ⟨a, Or.inl rfl, h⟩
      · exact Or.inr ⟨r, Or.inr hr, hx⟩
    · rintro (h | ⟨r, (rfl | hr), hx⟩)
      · exact Or.inl (Or.inl h)
      · exact Or.inl (Or.inr hx)
      · exact Or.inr ⟨r, hr, hx⟩

theorem mem_anchorCands (ms rms : List Nat) (x : ℚ × Nat) :
    x ∈ anchorCands ms rms ↔ ∃ r ∈ rms, ∃ k ∈ ms, x = (discountedDist k r, k) := by
  rw [anchorCands, mem_foldl_append]
  simp only [List.mem_map, List.not_mem_nil, false_or]
  constructor
  · rintro ⟨r, hr, k, hk, rfl⟩
    exact ⟨r, hr, k, hk, rfl⟩
  · rintro ⟨r, hr, k, hk, rfl⟩
    exact ⟨r, hr, k, hk, rfl⟩

/-- Concrete locator text: "REF" at position 100, "KW" occurrences at 80 and
130, a qualifying numeric token with unit near each (value 11 near the
position-80 occurrence, value 22 near the position-130 occurrence). -/
def anchorText : String :=
  ⟨List.replicate 80 'x' ++ "KW 11 (nm)".data ++ List.replicate 10 'x' ++
    "REF".data ++ List.replicate 27 'x' ++ "KW 22 (nm)".data⟩

/-- C7 (amended): the v1 locator selects, among all (reference, keyword)
occurrence pairs, a keyword occurrence of minimal discounted distance (0.5
factor when the keyword follows the reference), and on the concrete instance
(reference at 100, keywords at 80 and 130) it picks the occurrence at 130,
returning the value 22 found there; the v2 multi-keyword locator applies NO
discount — plain `|kw − ref|` with a longer-keyword tiebreak — and on the
same instance picks the occurrence at 80, returning 11. -/
theorem c7_directional_bias_amended :
    (∀ (ms rms : List Nat) (first : Nat), anchorCands ms rms ≠ [] →
        ∃ r ∈ rms, ∃ k ∈ ms, bestAnchor ms rms first = k ∧
          ∀ r' ∈ rms, ∀ k' ∈ ms, discountedDist k r ≤ discountedDist k' r') ∧
    extract_value_near anchorText "KW" "nm" 1000 (some "REF") = "22" ∧
    extract_value_near_any anchorText ["KW"] "nm" 1000 (some "REF") = "11" := by
  refine ⟨?_, by decide, by decide⟩
  intro ms rms first hne
  rcases hc : anchorCands ms rms with _ | ⟨c, cs⟩
  · exact absurd hc hne
  · obtain ⟨hmem, hle, hall⟩ := keepMinFst_spec cs c
    have hbm : keepMinFst c cs ∈ anchorCands ms rms := by
      rw [hc]
      rcases hmem with h | h
      · rw [h]; exact List.mem_cons_self _ _
      · exact List.mem_cons_of_mem _ h
    rw [mem_anchorCands] at hbm
    obtain ⟨r, hr, k, hk, hbeq⟩ := hbm
    refine ⟨r, hr, k, hk, ?_, ?_⟩
    · rw [bestAnchor, hc]
      show (keepMinFst c cs).2 = k
      rw [hbeq]
    · intro r' hr' k' hk'
      have hxin : (discountedDist k' r', k') ∈ anchorCands ms rms :=
        (mem_anchorCands ms rms _).mpr ⟨r', hr', k', hk', rfl⟩
      rw [hc] at hxin
      have hmin : (keepMinFst c cs).1 ≤ discountedDist k' r' := by
        rcases List.mem_cons.mp hxin with h | h
        · have hc1 : c.1 = discountedDist k' r' := by rw [← h]
          rw [← hc1]
          exact hle
        · exact hall _ h
      rw [hbeq] at hmin
      exact hmin

/-- C7 counterexample: the claim's concrete instance on the v2 locator
(`extract_value_near_any`, named in the claim's sources): "REF" is at
position 100 and the "KW" occurrences are at 80 and 130, each with a
qualifying numeric token nearby, yet the occurrence selected is the one at
80 — its value 11 is returned, not the value 22 near position 130 — because
the v2 locator computes the plain undiscounted distance. -/
theorem c7_directional_bias_counterexample :
    pyFind anchorText.data "REF".data = some 100 ∧
    litMatches anchorText.data "KW".data = [80, 130] ∧
    extract_value_near_any anchorText ["KW"] "nm" 1000 (some "REF") = "11" ∧
    ("11" : String) ≠ "22" := by
  refine ⟨by decide, by decide, by decide, by decide⟩

/-- Witness instantiating C7 (amended)'s universal part at the concrete
occurrence lists of `anchorText`. -/
theorem c7_directional_bias_witness :
    ∃ r ∈ [100], ∃ k ∈ [80, 130], bestAnchor [80, 130] [100] 80 = k ∧
      ∀ r' ∈ [100], ∀ k' ∈ [80, 130], discountedDist k r ≤ discountedDist k' r' :=
  c7_directional_bias_amended.1 [80, 130] [100] 80 (by decide)

/-! ### Backend A, v2: the line machine of `pdf_processor_v2.parse_nldft_pairs` -/

/-- Start-anchor test of v2 `parse_nldft_pairs` (lines 214-217). -/
def v2LineIsStart (l : String) : Bool :=
  pyContains l.data "NLDFT详细数据".data || pyContains l.data "详细数据NLDFT".data ||
    (pyContains l.data "NLDFT".data && pyContains l.data "详细数据".data) ||
    pyContains l.data "孔直径范围".data

/-- The v2 scan loop (`pdf_processor_v2.py` 222-258) with explicit fuel; the
loop guard is `i < len(lines) - 5` over Python integers, rendered as
`i + 5 < lines.length`.  States: P/P0, range, average diameter, differential
volume, integral volume, optional adsorption field.  On a failed field the
index jumps to the failing position and the machine re-enters its initial
state (equivalently, one line forward: the skipped positions are blank). -/
def parseGoV2 (lines : List String) : Nat → Nat → List NldftData → List NldftData
  | 0, _, data => data
  | fuel+1, i, data =>
    if i + 5 < lines.length then
      let i' := nextNonempty lines i
      if lines.length ≤ i' then data
      else if matchFloatRe (pyStrip (lines.getD i' "")).data = false then
        parseGoV2 lines fuel (i' + 1) data
      else
        let j := nextNonempty lines (i' + 1)
        if lines.length ≤ j ∨ matchRangeReV2 (pyStrip (lines.getD j "")).data = false then
          parseGoV2 lines fuel j data
        else
          let k := nextNonempty lines (j + 1)
          if lines.length ≤ k ∨ matchFloatRe (pyStrip (lines.getD k "")).data = false then
            parseGoV2 lines fuel k data
          else
            let m := nextNonempty lines (k + 1)
            if lines.length ≤ m ∨ matchFloatRe (pyStrip (lines.getD m "")).data = false then
              parseGoV2 lines fuel m data
            else
              let n := nextNonempty lines (m + 1)
              if lines.length ≤ n ∨ matchFloatRe (pyStrip (lines.getD n "")).data = false then
                parseGoV2 lines fuel n data
              else
                let data' :=
                  match pyFloat? (pyStrip (lines.getD k "")),
                      pyFloat? (pyStrip (lines.getD n "")) with
                  | some a, some b => data ++ [⟨a, b⟩]
                  | _, _ => data
                parseGoV2 lines fuel (nextNonempty lines (n + 1)) data'
    else data

/-- Model of v2 `parse_nldft_pairs(text)` (`pdf_processor_v2.py` 205-261):
locate the start line, run the machine, sort by integral volume alone. -/
def parse_nldft_pairs_v2 (text : String) : List NldftData :=
  let lines := pySplitlines text
  match lines.findIdx? v2LineIsStart with
  | none => []
  | some start_idx => pySort volLeB (parseGoV2 lines (lines.length + 1) (start_idx + 1) [])

/-! ### Backend A, v1: block location in `pdf_processor.parse_nldft_pairs` -/

/-- Match a literal at the head, returning the remainder. -/
def matchLit (pat cs : List Char) : Option (List Char) :=
  if pat.isPrefixOf cs then some (cs.drop pat.length) else none

/-- Consume `\s*`. -/
def eatWs (cs : List Char) : List Char := cs.dropWhile pyIsSpace

/-- Match a sequence of literals separated by `\s*` gaps; the greedy gap
consumption is exact because no literal starts with whitespace. -/
def matchGappy : List (List Char) → List Char → Option (List Char)
  | [], cs => some cs
  | [p], cs => matchLit p cs
  | p :: q :: ps, cs =>
    match matchLit p cs with
    | none => none
    | some cs' => matchGappy (q :: ps) (eatWs cs')

/-- The v1 start-anchor alternation (`pdf_processor.py` 186-188).  The
space-tolerant first and third alternatives subsume the contiguous second
and fourth (with all gaps empty), with identical end positions, so matching
them suffices; source alternation order is preserved. -/
def matchStartAt (cs : List Char) : Option (List Char) :=
  match matchGappy ("NLDFT".data :: "详细数据".data.map fun c => [c]) cs with
  | some r => some r
  | none => matchGappy (("详细数据".data.map fun c => [c]) ++ ["NLDFT".data]) cs

/-- Leftmost start-anchor match: (start, end) positions. -/
def searchStartGo : List Char → Nat → Option (Nat × Nat)
  | [], _ => none
  | c :: rest, i =>
    match matchStartAt (c :: rest) with
    | some remaining => some (i, i + ((c :: rest).length - remaining.length))
    | none => searchStartGo rest (i + 1)

/-- Match `V-?Sorb` at the head; the deterministic split on the optional
hyphen is exact since a hyphen is not an `S`. -/
def matchVSorb : List Char → Option (List Char)
  | 'V' :: '-' :: rest => matchLit "Sorb".data rest
  | 'V' :: rest => matchLit "Sorb".data rest
  | _ => none

/-- The v1 end-anchor alternation (`pdf_processor.py` 191-193); the
space-tolerant first alternative subsumes the contiguous second. -/
def matchEndAt (cs : List Char) : Option (List Char) :=
  match matchGappy ("吸附详细测试数据".data.map fun c => [c]) cs with
  | some r => some r
  | none =>
    match matchVSorb cs with
    | some r => some r
    | none => matchLit "www.ultmetrics.com".data cs

/-- Leftmost end-anchor match start position. -/
def searchEndGo : List Char → Nat → Option Nat
  | [], _ => none
  | c :: rest, i =>
    if (matchEndAt (c :: rest)).isSome then some i else searchEndGo rest (i + 1)

/-- Model of v1 `parse_nldft_pairs(text)` (`pdf_processor.py` 173-255):
locate the NLDFT block between the start anchor's end and the end anchor's
start, split it into lines, run the tolerant machine, sort by volume. -/
def parse_nldft_pairs (text : String) : List NldftData :=
  match searchStartGo text.data 0 with
  | none => []
  | some se =>
    let text_after := text.data.drop se.2
    let block :=
      match searchEndGo text_after 0 with
      | some cut => text_after.take cut
      | none => text_after
    parse_nldft_lines ((splitlinesGo [] block).map fun cs => (⟨cs⟩ : String))

/-! ### Backend B: the structured grid extractor -/

instance exceptDecEq {ε α : Type} [DecidableEq ε] [DecidableEq α] :
    DecidableEq (Except ε α) := fun x y =>
  match x, y with
  | .ok a, .ok b => if h : a = b then .isTrue (by rw [h]) else .isFalse (by simp [h])
  | .error a, .error b => if h : a = b then .isTrue (by rw [h]) else .isFalse (by simp [h])
  | .ok _, .error _ => .isFalse (by simp)
  | .error _, .ok _ => .isFalse (by simp)

/-- Model of the `ExtractedTable` dataclass (`pdf_structured_extractor.py`
45-50); the bounding box, unused by any modelled computation, is omitted. -/
structure ExtractedTable where
  page_index : Nat
  table_index : Nat
  rows : List (List String)
deriving DecidableEq

/-- Remove NUL characters (`value.replace("\u0000", "")`). -/
def removeNulls (cs : List Char) : List Char := cs.filter fun c => c.toNat ≠ 0

/-- Model of structured `normalize_text` (lines 123-130): NFKC
normalisation — the identity on the character repertoire in play — then NUL
removal and strip (both branches of the source's ASCII fast path agree under
this reading). -/
def normalize_text (value : String) : String := ⟨pyStripChars (removeNulls value.data)⟩

/-- Model of `normalize_cell` (lines 133-134). -/
def normalize_cell (cell : String) : String :=
  ⟨pyReplace (pyReplace (normalize_text cell).data "\r\n".data "\n".data) "\r".data "\n".data⟩

/-- Model of `extract_number` (lines 177-187): `none` models Python `None`. -/
def extract_number (value : String) : Option String :=
  let text := normalize_cell value
  if text.data.isEmpty then none
  else if !(text.data.any Char.isDigit) then none
  else
    match numSearch (pyReplace text.data [','] []) with
    | some m => some ⟨m⟩
    | none => none

/-- Column-header keyword sets for the average-diameter column
(`NLDFT_AVG_KEYWORDS`, lines 105-111). -/
def NLDFT_AVG_KEYWORDS : List String :=
  ["平均孔直径", "平均孔径", "average pore diameter", "average pore width", "avg pore diameter"]

/-- Column-header keyword sets for the integral-volume column
(`NLDFT_INTEGRAL_KEYWORDS`, lines 112-116). -/
def NLDFT_INTEGRAL_KEYWORDS : List String :=
  ["孔积分体积", "pore integral volume", "integral pore volume"]

/-- The space-stripped lowercase keyword forms (lines 117-118). -/
def NLDFT_AVG_KEYWORDS_CLEAN : List (List Char) :=
  NLDFT_AVG_KEYWORDS.map fun s => stripAllSpace (pyLower s.data)

/-- The space-stripped lowercase integral keyword forms. -/
def NLDFT_INTEGRAL_KEYWORDS_CLEAN : List (List Char) :=
  NLDFT_INTEGRAL_KEYWORDS.map fun s => stripAllSpace (pyLower s.data)

/-- Inner helper `contains_keywords` of `extract_nldft_data` (lines
313-318). -/
def containsKeywords (text : List Char) (keywords : List (List Char)) : Bool :=
  let cleaned := stripAllSpace (pyLower text)
  keywords.any fun k => pyContains cleaned k

/-- Inner helper `is_data_row` (lines 320-329): at least two numeric cells
and a numeric first cell. -/
def isDataRow (row : List String) : Bool :=
  (decide (2 ≤ (row.filter fun c => (extract_number c).isSome).length)) &&
    (match row with
     | [] => false
     | c :: _ => (extract_number c).isSome)

/-- Full match of `AVG_DECIMAL_PATTERN` = `^[+-]?\d+\.\d{4}$` (line 120). -/
def matchAvgDecimal (cs : List Char) : Bool :=
  match digits1 (eatSign cs) with
  | none => false
  | some rest =>
    match rest with
    | '.' :: a :: b :: c :: d :: tail =>
      a.isDigit && b.isDigit && c.isDigit && d.isDigit && decide (tail = [])
    | _ => false

/-- Round half-to-even to an integer (Python `round` on an exact value). -/
def roundHalfEven (x : ℚ) : ℤ :=
  let f := x.floor
  let r := x - (f : ℚ)
  if r < 1/2 then f
  else if 1/2 < r then f + 1
  else if f % 2 = 0 then f
  else f + 1

/-- Python `round(x, 6)` on the exact rational value. -/
def pyRound6 (x : ℚ) : ℚ := (roundHalfEven (x * 10^6) : ℚ) / 10^6

/-- Python `" ".join(...)` on character lists. -/
def joinSpace : List (List Char) → List Char
  | [] => []
  | [x] => x
  | x :: y :: rest => x ++ ' ' :: joinSpace (y :: rest)

/-- The lowered text of the first three rows used for the distribution-table
prefilter (line 338). -/
def previewText (rows : List (List String)) : List Char :=
  pyLower (joinSpace ((rows.take 3).map fun row => joinSpace (row.map String.data)))

/-- Python `max(len(row) for row in rows)` (over a non-empty list). -/
def maxCols (rows : List (List String)) : Nat :=
  rows.foldl (fun acc r => max acc r.length) 0

/-- Concatenated per-column header text (lines 350-360). -/
def columnHeader (header_rows : List (List String)) (col : Nat) : List Char :=
  joinSpace (header_rows.filterMap fun row =>
    match row.get? col with
    | some cell =>
      let c := normalize_cell cell
      if c.data.isEmpty then none else some c.data
    | none => none)

/-- First column (in index order) whose concatenated header is non-empty and
mentions one of the keywords (lines 362-369). -/
def findCol (header_rows : List (List String)) (ncols : Nat)
    (keywords : List (List Char)) : Option Nat :=
  (List.range ncols).find? fun col =>
    let text := columnHeader header_rows col
    !text.isEmpty && containsKeywords text keywords

/-- One data row of a candidate table (lines 375-397): bounds check, numeric
extraction of both target cells, the fixed-precision guard on the average
diameter, the near-zero rejection, and rounding of the integral volume. -/
def rowSample (avg_col integral_col : Nat) (row : List String) : Option NldftData :=
  if row.length ≤ avg_col ∨ row.length ≤ integral_col then none
  else
    match extract_number (row.getD avg_col ""), extract_number (row.getD integral_col "") with
    | some avg_str, some integral_str =>
      let avg_clean := pyReplace avg_str.data [','] []
      if !matchAvgDecimal avg_clean then none
      else
        match pyFloat? ⟨avg_clean⟩, pyFloat? integral_str with
        | some avg_val, some integral_val =>
          if ratAbs avg_val < 1/10^12 then none
          else some ⟨avg_val, pyRound6 integral_val⟩
        | _, _ => none
    | _, _ => none

/-- The samples contributed by one table (lines 333-397): prefilter on the
first three rows, data-start detection, per-column header assembly, keyword
column matching (either column missing skips the table), then the data
rows. -/
def tableSamples (table : ExtractedTable) : List NldftData :=
  let rows := table.rows
  if rows.isEmpty then []
  else
    let preview := previewText rows
    if !(pyContains preview "nldft".data) && !(pyContains preview "p/p0".data) then []
    else
      match rows.findIdx? isDataRow with
      | none => []
      | some idx =>
        let header_rows := if (rows.take idx).isEmpty then rows.take 1 else rows.take idx
        let ncols := maxCols rows
        match findCol header_rows ncols NLDFT_AVG_KEYWORDS_CLEAN,
            findCol header_rows ncols NLDFT_INTEGRAL_KEYWORDS_CLEAN with
        | some avg_col, some integral_col =>
          (rows.drop idx).filterMap (rowSample avg_col integral_col)
        | _, _ => []

/-- Concatenation of all candidate tables' samples in table order
(`aggregated_rows`). -/
def aggregateRows (tables : List ExtractedTable) : List NldftData :=
  tables.foldl (fun acc t => acc ++ tableSamples t) []

/-- The monotonicity scan of lines 402-409: true iff some element's average
diameter is below its predecessor's by more than 1e-8. -/
def monoViolation : List NldftData → Bool
  | a :: b :: rest => (decide (diamOf b < diamOf a - 1/10^8)) || monoViolation (b :: rest)
  | _ => false

/-- The descriptive text of the `ValueError` raised on a monotonicity
violation; the Python message also interpolates the offending pair of
values, summarised here by the fixed text. -/
def monoErrMsg : String := "NLDFT平均孔径序列出现降序，请检查表格解析结果"

/-- Model of `extract_nldft_data(tables)` (lines 312-412): aggregation, the
empty early return, the monotonicity hard failure (`Except.error` models the
raised `ValueError`), and the final sort by (volume, diameter). -/
def extract_nldft_data (tables : List ExtractedTable) : Except String (List NldftData) :=
  let agg := aggregateRows tables
  if agg.isEmpty then Except.ok []
  else if monoViolation agg then Except.error monoErrMsg
  else Except.ok (pySort pairLeB agg)

theorem monoViolation_of_get :
    ∀ (l : List NldftData) (i : Nat) (hi : i + 1 < l.length),
      diamOf (l.get ⟨i+1, hi⟩) < diamOf (l.get ⟨i, by omega⟩) - 1/10^8 →
      monoViolation l = true := by
  intro l
  induction l with
  | nil => intro i hi h; simp at hi
  | cons a tail ih =>
    intro i hi h
    cases tail with
    | nil => simp at hi
    | cons b rest =>
      cases i with
      | zero =>
        rw [monoViolation]
        simp only [Bool.or_eq_true, decide_eq_true_eq]
        exact Or.inl h
      | succ n =>
        rw [monoViolation]
        simp only [Bool.or_eq_true]
        refine Or.inr (ih n (by simpa using hi) ?_)
        simpa using h

/-- C5: for every grid input whose aggregated sample sequence contains an
element whose average diameter is below the previous element's by more than
the 1e-8 tolerance, `extract_nldft_data` raises the monotonicity hard
failure (modelled as `Except.error`) — it never silently returns the
non-monotonic series. -/
theorem c5_monotonicity_hard_failure
    (tables : List ExtractedTable)
    (h : ∃ (i : Nat) (hi : i + 1 < (aggregateRows tables).length),
        diamOf ((aggregateRows tables).get ⟨i+1, hi⟩) <
          diamOf ((aggregateRows tables).get ⟨i, by omega⟩) - 1/10^8) :
    extract_nldft_data tables = Except.error monoErrMsg := by
  obtain ⟨i, hi, h⟩ := h
  have hviol : monoViolation (aggregateRows tables) = true :=
    monoViolation_of_get (aggregateRows tables) i hi h
  have hne : (aggregateRows tables).isEmpty = false := by
    cases hagg : aggregateRows tables with
    | nil => rw [hagg] at hi; simp at hi
    | cons x xs => rfl
  rw [extract_nldft_data, hne]
  simp only [Bool.false_eq_true, if_false]
  rw [hviol]
  rfl

/-- A grid table whose headers match the average-diameter and
integral-volume keyword sets and whose two data rows carry a DESCENDING
diameter sequence (10 then 5). -/
def vTable : ExtractedTable :=
  ⟨0, 0, [["NLDFT", ""],
          ["平均孔直径(nm)", "孔积分体积(cm3/g)"],
          ["10.0000", "0.100000"],
          ["5.0000", "0.200000"]]⟩

/-- Witness instantiating C5 on the concrete out-of-order grid `vTable`. -/
theorem c5_monotonicity_hard_failure_witness :
    extract_nldft_data [vTable] = Except.error monoErrMsg :=
  c5_monotonicity_hard_failure [vTable] ⟨0, by decide, by decide⟩

/-- Like `vTable` but with the two data rows in ascending diameter order. -/
def gTable : ExtractedTable :=
  ⟨0, 0, [["NLDFT", ""],
          ["平均孔直径(nm)", "孔积分体积(cm3/g)"],
          ["5.0000", "0.100000"],
          ["10.0000", "0.200000"]]⟩

/-- Line stream producing two well-formed samples with EQUAL integral
volumes and descending diameters. -/
def equalVolumeStream : List String :=
  ["1-2", "2", "0.01", "5", "q",
   "2-3", "1", "0.02", "5", "q"]

/-- C6 counterexample: the v1 line-stream backend parses
`equalVolumeStream` to two samples of equal volume whose diameters appear in
encounter order 2, 1 — the output is NOT sorted ascending by the pair
(pore_integral_volume, average_pore_diameter), because the line-stream
backends sort by volume alone (stably). -/
theorem c6_canonical_sort_counterexample :
    parse_nldft_lines equalVolumeStream = [⟨2, 5⟩, ⟨1, 5⟩] ∧
    ¬ (parse_nldft_lines equalVolumeStream).Pairwise (fun a b => pairLeB a b = true) := by
  constructor
  · decide
  · decide

/-- C6 (amended): the two line-stream backends return their accepted samples
sorted ascending by `pore_integral_volume` alone (stable, so equal-volume
samples keep encounter order, not diameter order), while the grid backend
returns samples sorted ascending by the pair
(pore_integral_volume, average_pore_diameter). -/
theorem c6_canonical_sort_amended :
    (∀ (lines : List String),
        (parse_nldft_lines lines).Pairwise (fun a b => volLeB a b = true)) ∧
    (∀ (text : String),
        (parse_nldft_pairs text).Pairwise (fun a b => volLeB a b = true)) ∧
    (∀ (text : String),
        (parse_nldft_pairs_v2 text).Pairwise (fun a b => volLeB a b = true)) ∧
    (∀ (tables : List ExtractedTable) (l : List NldftData),
        extract_nldft_data tables = Except.ok l →
        l.Pairwise (fun a b => pairLeB a b = true)) := by
  have hv1 : ∀ (lines : List String),
      (parse_nldft_lines lines).Pairwise (fun a b => volLeB a b = true) := by
    intro lines
    exact pySort_sorted volLeB volLeB_total volLeB_trans _
  refine ⟨hv1, ?_, ?_, ?_⟩
  · intro text
    rw [parse_nldft_pairs]
    cases searchStartGo text.data 0 with
    | none => simp
    | some se => exact hv1 _
  · intro text
    rw [parse_nldft_pairs_v2]
    cases (pySplitlines text).findIdx? v2LineIsStart with
    | none => simp
    | some start_idx => exact pySort_sorted volLeB volLeB_total volLeB_trans _
  · intro tables l h
    rw [extract_nldft_data] at h
    by_cases h₁ : (aggregateRows tables).isEmpty = true
    · rw [if_pos h₁] at h
      obtain rfl : ([] : List NldftData) = l := Except.ok.inj h
      simp
    · rw [if_neg h₁] at h
      by_cases h₂ : monoViolation (aggregateRows tables) = true
      · rw [if_pos h₂] at h
        exact absurd h (by simp)
      · rw [if_neg h₂] at h
        obtain rfl := Except.ok.inj h
        exact pySort_sorted pairLeB pairLeB_total pairLeB_trans _

/-- Witness instantiating C6 (amended)'s grid conjunct on the concrete
well-ordered grid `gTable` (and its other universal conjuncts at concrete
inputs). -/
theorem c6_canonical_sort_witness :
    (parse_nldft_lines equalVolumeStream).Pairwise (fun a b => volLeB a b = true) ∧
    ([⟨5, 1/10⟩, ⟨10, 1/5⟩] : List NldftData).Pairwise (fun a b => pairLeB a b = true) := by
  constructor
  · exact c6_canonical_sort_amended.1 equalVolumeStream
  · exact c6_canonical_sort_amended.2.2.2 [gTable] [⟨5, 1/10⟩, ⟨10, 1/5⟩] (by decide)

/-! ### Result record and the two orchestrators -/

/-- Model of the `ProcessResult` dataclass (all three modules; `raw_text`
only exists in the structured variant and is left empty elsewhere). -/
structure ProcessResult where
  success : Bool
  error_message : String := ""
  sp_bet : String := ""
  mp_bet : String := ""
  total_pore_vol : String := ""
  avg_pore_d : String := ""
  most_probable : String := ""
  raw_text : String := ""
  nldft_data : List NldftData := []
  d10_int : ℚ := 0
  d10 : ℚ := 0
  d90_int : ℚ := 0
  d90 : ℚ := 0
  d90_d10_ratio : ℚ := 0
  pore_volume_A : ℚ := 0
  d0_5 : ℚ := 0
  volume_0_5D : ℚ := 0
  less_than_0_5D : ℚ := 0
  d1_5 : ℚ := 0
  volume_1_5D : ℚ := 0
  greater_than_1_5D : ℚ := 0
deriving DecidableEq

/-- Python `max(row.pore_integral_volume for row in data)` (0 on the empty
list, matching the structured extractor's `default=0.0`). -/
def maxVol : List NldftData → ℚ
  | [] => 0
  | x :: xs => xs.foldl (fun acc r => ratMax acc (volOf r)) (volOf x)

/-- Association-list lookup (first binding wins), modelling `dict.get`. -/
def alookup (m : List (String × String)) (k : String) : Option String :=
  match m with
  | [] => none
  | (k', v) :: rest => if k' = k then some v else alookup rest k

/-- Python `a or b` on an optional string versus a fallback string. -/
def orElse (a : Option String) (b : String) : String :=
  match a with
  | some v => if v = "" then b else v
  | none => b

/-- Model of v1 `clean_text` (`pdf_processor.py` 48-53): NFKC (identity on
the repertoire in play), newline unification, NBSP and ideographic-space
replacement. -/
def clean_text (text : String) : String :=
  ⟨pyReplace (pyReplace (pyReplace (pyReplace text.data "\r\n".data "\n".data)
    "\r".data "\n".data) "\u00A0".data " ".data) "\u3000".data " ".data⟩

/-- Model of `section_text` (`pdf_processor.py` 64-72): from the first
occurrence of the start label to the earliest following end label (or
end-of-text). -/
def section_text (text start_label : String) (end_labels : List String) : String :=
  match pyFind text.data start_label.data with
  | none => ""
  | some start =>
    let ends := (end_labels.map fun lbl =>
      pyFindFrom text.data lbl.data (start + start_label.data.length)).filterMap id
    let stop :=
      match ends with
      | [] => text.data.length
      | e :: es => es.foldl min e
    ⟨pySlice text.data start stop⟩

/-- The fixed seven-label order of the surface-area section
(`pdf_processor.py` 162-164). -/
def surfaceLabels : List String :=
  ["单点BET比表面积", "多点BET比表面积", "Langmuir比表面积", "T图法微孔面积",
   "T图法外表面积", "BJH吸附累积孔内表面积", "BJH脱附累积孔内表面积"]

/-- Model of v1 `extract_surface_area_map` (`pdf_processor.py` 146-169):
collect the `NUM (m^2/g)` occurrences of the surface-area section in order
and zip them onto the fixed label list. -/
def extract_surface_area_map (text : String) : List (String × String) :=
  let sec := section_text text "比表面积分析报告"
      ["孔体积分析报告", "孔径分析报告", "比表面及孔径分析报告"]
  let vals := (numUnitMatches false "m^2/g".data sec.data).map
    fun t => ((⟨pyReplace t.2.2 [','] []⟩ : String))
  surfaceLabels.zip vals

/-- The derived-metric tail of v1 `process_pdf` (`pdf_processor.py`
335-399), as a function of the extracted scalar strings and the parsed
series: the two hard-failure checks, the float parse of the total pore
volume, D10/D90, the ratio, the pore-volume maximum, and the threshold
block with its graceful-degradation defaults. -/
def v1Tail (sp_bet mp_bet total_pore_vol avg_pore_d most_probable : String)
    (nldft : List NldftData) : ProcessResult :=
  if nldft.isEmpty then
    { success := false, error_message := "未提取到NLDFT详细数据" }
  else if total_pore_vol = "" then
    { success := false, error_message := "无法进行后续计算，因为未找到最高单点吸附总孔体积" }
  else
    match pyFloat? total_pore_vol with
    | none => { success := false, error_message := "最高单点吸附总孔体积解析失败，无法计算" }
    | some total =>
      let d10_int := total * (1/10)
      let d90_int := total * (9/10)
      let d10 := interpolate_diameter d10_int nldft
      let d90 := interpolate_diameter d90_int nldft
      let d90_d10_ratio := if d10 ≠ 0 then d90 / d10 else 0
      let pore_volume_A := if !nldft.isEmpty then maxVol nldft else 0
      let thresholds : ℚ × ℚ × ℚ × ℚ × ℚ × ℚ :=
        if most_probable ≠ "" then
          match pyFloat? most_probable with
          | some mpv =>
            let d0_5 := mpv * (1/2)
            let volume_0_5D := interpolate_volume d0_5 nldft
            let less_than_0_5D :=
              if pore_volume_A > 1/10^9 then volume_0_5D / pore_volume_A * 100 else 0
            let d1_5 := mpv * (3/2)
            let volume_1_5D := interpolate_volume d1_5 nldft
            let greater_than_1_5D :=
              if pore_volume_A > 1/10^9 then (pore_volume_A - volume_1_5D) / pore_volume_A * 100
              else 0
            (d0_5, volume_0_5D, less_than_0_5D, d1_5, volume_1_5D, greater_than_1_5D)
          | none => (0, 0, 0, 0, 0, 0)
        else (0, 0, 0, 0, 0, 0)
      { success := true, sp_bet := sp_bet, mp_bet := mp_bet,
        total_pore_vol := total_pore_vol, avg_pore_d := avg_pore_d,
        most_probable := most_probable, nldft_data := nldft,
        d10_int := d10_int, d10 := d10, d90_int := d90_int, d90 := d90,
        d90_d10_ratio := d90_d10_ratio, pore_volume_A := pore_volume_A,
        d0_5 := thresholds.1, volume_0_5D := thresholds.2.1,
        less_than_0_5D := thresholds.2.2.1, d1_5 := thresholds.2.2.2.1,
        volume_1_5D := thresholds.2.2.2.2.1,
        greater_than_1_5D := thresholds.2.2.2.2.2 }

/-- Model of v1 `process_pdf` downstream of pdfminer text extraction
(`pdf_processor.py` 314-399), as a function of the raw extracted text.  The
source wraps this body in a catch-all `except Exception`; every
potentially-raising operation inside the body (the two `float` calls) is
itself guarded, so the body is total and the outer handler is
unreachable. -/
def process_pdf_text (raw : String) : ProcessResult :=
  let text := clean_text raw
  if pyStrip text = "" then
    { success := false, error_message := "无法从PDF中提取文本内容" }
  else
    let sa_map := extract_surface_area_map text
    let sp_bet := orElse (alookup sa_map "单点BET比表面积")
      (extract_value_near text "单点BET比表面积" "m^2/g" 1000 none)
    let mp_bet := orElse (alookup sa_map "多点BET比表面积")
      (extract_value_near text "多点BET比表面积" "m^2/g" 1000 none)
    let total_pore_vol := extract_value_near text "最高单点吸附总孔体积" "cm^3/g" 1000 none
    let avg_pore_d := extract_value_near text "单点总孔吸附平均孔直径" "nm" 1000 none
    let most_probable := extract_value_near text "最可几孔径" "nm" 200 (some "NLDFT详细数据")
    let nldft := parse_nldft_pairs text
    v1Tail sp_bet mp_bet total_pore_vol avg_pore_d most_probable nldft

/-! ### Structured summary metrics and the structured orchestrator -/

/-- `SURFACE_LABELS_LOWER` (`pdf_structured_extractor.py` 57-60, 74-78). -/
def SURFACE_LABELS_LOWER : List (String × List (List Char)) :=
  [("sp_bet", [pyLower "单点BET比表面积".data, pyLower "single point surface area".data]),
   ("mp_bet", [pyLower "多点BET比表面积".data, pyLower "bet surface area".data])]

/-- `PORE_VOLUME_LABELS_LOWER` (lines 62-64). -/
def PORE_VOLUME_LABELS_LOWER : List (String × List (List Char)) :=
  [("total_pore_vol",
    [pyLower "最高单点吸附总孔体积".data, pyLower "single point adsorption total pore volume".data])]

/-- `PORE_SIZE_LABELS_LOWER` (lines 66-68). -/
def PORE_SIZE_LABELS_LOWER : List (String × List (List Char)) :=
  [("avg_pore_d",
    [pyLower "单点总孔吸附平均孔直径".data, pyLower "total adsorption average pore width".data])]

/-- `SECTION_KEYWORDS` in dict order (lines 83-88). -/
def SECTION_KEYWORDS : List String := ["surface area", "pore volume", "pore size"]

/-- `SECTION_LABELS[name]`. -/
def sectionLabelMap (name : String) : List (String × List (List Char)) :=
  if name = "surface area" then SURFACE_LABELS_LOWER
  else if name = "pore volume" then PORE_VOLUME_LABELS_LOWER
  else PORE_SIZE_LABELS_LOWER

/-- Model of `label_variants_lower` (lines 137-147). -/
def label_variants_lower (cell : String) : List (List Char) :=
  let text := normalize_cell cell
  if text.data.isEmpty then []
  else
    let lns := ((splitlinesGo [] text.data).map pyStripChars).filter fun l => l ≠ []
    let lns := if lns.isEmpty then [pyStripChars text.data] else lns
    (lns.filter fun l => l ≠ []).map pyLower

/-- Model of `label_matches` (lines 167-174). -/
def label_matches (cell : String) (targets : List (List Char)) : Bool :=
  (label_variants_lower cell).any fun v =>
    targets.any fun t => (t ≠ [] : Bool) && pyContains v t

/-- One (variant, target) score of `label_match_score` (lines 150-164):
3 on equality, 2 on suffix, 1 on containment. -/
def pairScore (v t : List Char) : Nat :=
  if t = [] then 0
  else if v = t then 3
  else if t.isSuffixOf v then 2
  else if pyContains v t then 1
  else 0

/-- Model of `label_match_score`: the early `return 3` makes the result the
maximum pair score. -/
def label_match_score (cell : String) (targets : List (List Char)) : Nat :=
  if cell.data.isEmpty then 0
  else ((label_variants_lower cell).map fun v =>
    (targets.map (pairScore v)).foldl max 0).foldl max 0

/-- Fill the still-missing target keys from one row (lines 269-281): a row
contributes a key when some cell matches its label set and the row, scanned
from its last cell backwards, has a numeric cell. -/
def rowFill (metrics : List (String × String))
    (target_labels : List (String × List (List Char))) (row : List String) :
    List (String × String) :=
  target_labels.foldl (fun metrics kv =>
    if (alookup metrics kv.1).isSome then metrics
    else
      match row.find? (fun cell => label_matches cell kv.2) with
      | none => metrics
      | some _ =>
        match row.reverse.findSome? extract_number with
        | some v => metrics ++ [(kv.1, v)]
        | none => metrics) metrics

/-- The per-table row loop of `extract_summary_metrics` (lines 259-281),
with the running current-section state. -/
def tableRowsFill (metrics : List (String × String)) (rows : List (List String)) :
    List (String × String) :=
  (rows.foldl (fun (st : Option String × List (String × String)) row =>
    let row_joined := pyLower (joinSpace (row.map String.data))
    let sec :=
      match SECTION_KEYWORDS.find? (fun name => pyContains row_joined name.data) with
      | some name => some name
      | none => st.1
    match sec with
    | none => (none, st.2)
    | some name => (some name, rowFill st.2 (sectionLabelMap name) row)) (none, metrics)).2

/-- Model of `extract_summary_metrics` (lines 252-285), with the early break
once all four keys are filled. -/
def extract_summary_metrics (tables : List ExtractedTable) : List (String × String) :=
  (tables.foldl (fun (st : List (String × String) × Bool) table =>
    if st.2 then st
    else
      let joined_header := pyLower (joinSpace ((table.rows.take 2).map fun row =>
        joinSpace (row.map String.data)))
      if !(SECTION_KEYWORDS.any fun k => pyContains joined_header k.data) then st
      else
        let metrics := tableRowsFill st.1 table.rows
        (metrics, ["sp_bet", "mp_bet", "total_pore_vol", "avg_pore_d"].all
          fun k => (alookup metrics k).isSome)) ([], false)).1

/-- The lowered `MISC_LABELS` candidates for the most-probable-diameter key
(lines 70-72). -/
def MISC_MOST_PROBABLE : List (List Char) :=
  [pyLower "最可几孔径".data, pyLower "modal pore width".data, pyLower "mode pore width".data]

/-- Python tuple `<` on integer triples. -/
def lexLt3 (a b : ℤ × ℤ × ℤ) : Bool :=
  decide (a.1 < b.1 ∨ (a.1 = b.1 ∧ (a.2.1 < b.2.1 ∨ (a.2.1 = b.2.1 ∧ a.2.2 < b.2.2))))

/-- Model of `extract_value_by_label(tables, "most_probable")` (lines
288-309): best cell over all tables under the strict tuple order
(score, page_index, −table_index), the value taken from the first numeric
cell to the right of the matching cell. -/
def extract_value_by_label (tables : List ExtractedTable) : Option String :=
  (tables.foldl (fun best table =>
    table.rows.foldl (fun best row =>
      row.enum.foldl (fun (best : (ℤ × ℤ × ℤ) × Option String) ic =>
        let score := label_match_score ic.2 MISC_MOST_PROBABLE
        if score = 0 then best
        else
          match (row.drop (ic.1 + 1)).findSome? extract_number with
          | none => best
          | some value =>
            let k : ℤ × ℤ × ℤ := ((score : ℤ), (table.page_index : ℤ), -(table.table_index : ℤ))
            if lexLt3 best.1 k then (k, some value) else best) best) best)
    (((0 : ℤ), (-1 : ℤ), (-1 : ℤ)), (none : Option String))).2

/-- The tail of `process_pdf_structured` after table collection, summary
extraction and NLDFT extraction (lines 492-550). -/
def structuredTail (tables : List ExtractedTable) (raw_text : String)
    (summary : List (String × String)) (most_probable : String)
    (nldft_data : List NldftData) : ProcessResult :=
  if tables.isEmpty then { success := false, error_message := "未检测到任何表格结构" }
  else if nldft_data.isEmpty then
    { success := false, error_message := "未提取到NLDFT详细数据" }
  else
    match alookup summary "total_pore_vol" with
    | none => { success := false, error_message := "缺少最高单点吸附总孔体积，无法计算分位体积" }
    | some tpv =>
      if tpv = "" then
        { success := false, error_message := "缺少最高单点吸附总孔体积，无法计算分位体积" }
      else
        match pyFloat? tpv with
        | none => { success := false, error_message := "最高单点吸附总孔体积解析失败" }
        | some total =>
          let d10_int := total * (1/10)
          let d90_int := total * (9/10)
          let d10 := interpolate_diameter d10_int nldft_data
          let d90 := interpolate_diameter d90_int nldft_data
          let d90_d10_ratio := if d10 ≠ 0 then d90 / d10 else 0
          let pore_volume_A := maxVol nldft_data
          let thresholds : ℚ × ℚ × ℚ × ℚ × ℚ × ℚ :=
            if most_probable ≠ "" then
              match pyFloat? most_probable with
              | some modal =>
                let d0_5 := modal * (1/2)
                let d1_5 := modal * (3/2)
                let volume_0_5D := interpolate_volume d0_5 nldft_data
                let volume_1_5D := interpolate_volume d1_5 nldft_data
                if pore_volume_A > 1/10^12 then
                  (d0_5, volume_0_5D, volume_0_5D / pore_volume_A * 100, d1_5, volume_1_5D,
                    (pore_volume_A - volume_1_5D) / pore_volume_A * 100)
                else (d0_5, volume_0_5D, 0, d1_5, volume_1_5D, 0)
              | none => (0, 0, 0, 0, 0, 0)
            else (0, 0, 0, 0, 0, 0)
          { success := true, sp_bet := (alookup summary "sp_bet").getD "",
            mp_bet := (alookup summary "mp_bet").getD "",
            total_pore_vol := tpv, avg_pore_d := (alookup summary "avg_pore_d").getD "",
            most_probable := most_probable, raw_text := raw_text,
            nldft_data := nldft_data,
            d10_int := d10_int, d10 := d10, d90_int := d90_int, d90 := d90,
            d90_d10_ratio := d90_d10_ratio, pore_volume_A := pore_volume_A,
            d0_5 := thresholds.1, volume_0_5D := thresholds.2.1,
            less_than_0_5D := thresholds.2.2.1, d1_5 := thresholds.2.2.2.1,
            volume_1_5D := thresholds.2.2.2.2.1,
            greater_than_1_5D := thresholds.2.2.2.2.2 }

/-- The guarded first `extract_nldft_data` call of `process_pdf_structured`
(lines 474-479): the `try/except ValueError` producing the `nldft_error`
flag and the (possibly emptied) series. -/
def structuredFirstPass (tables₀ : List ExtractedTable) : Bool × List NldftData :=
  match extract_nldft_data tables₀ with
  | .ok l => (false, l)
  | .error _ => (true, [])

/-- The fallback trigger of line 481: no tables, no samples, missing or
empty total-pore-volume summary entry, or a caught NLDFT error. -/
def structuredNeedsFallback (tables₀ : List ExtractedTable) : Bool :=
  tables₀.isEmpty || (structuredFirstPass tables₀).2.isEmpty ||
    decide ((alookup (extract_summary_metrics tables₀) "total_pore_vol").getD "" = "") ||
    (structuredFirstPass tables₀).1

/-- Model of `process_pdf_structured` (lines 466-550) as a function of the
two external `collect_tables` outcomes (the prefiltered pass with its raw
text, and the unfiltered fallback pass); `Except.error` on the OUTSIDE
models an exception propagating uncaught to the caller, while a caught
exception becomes an `Except.ok` carrying a failed `ProcessResult`.  The
first `extract_nldft_data` call sits inside `try/except ValueError`; the
fallback-path call does not. -/
def process_pdf_structured
    (collectPre : Except String (List ExtractedTable × String))
    (collectAll : Except String (List ExtractedTable)) :
    Except String ProcessResult :=
  match collectPre with
  | .error exc => .ok { success := false, error_message := "结构化解析失败：" ++ exc }
  | .ok tr =>
    if structuredNeedsFallback tr.1 then
      match collectAll with
      | .error exc => .ok { success := false, error_message := "结构化解析失败：" ++ exc }
      | .ok fallback_tables =>
        if fallback_tables.isEmpty then
          .ok (structuredTail tr.1 tr.2 (extract_summary_metrics tr.1)
            ((extract_value_by_label tr.1).getD "") (structuredFirstPass tr.1).2)
        else
          match extract_nldft_data fallback_tables with
          | .error e => .error e
          | .ok nldft₁ =>
            .ok (structuredTail fallback_tables tr.2 (extract_summary_metrics fallback_tables)
              ((extract_value_by_label fallback_tables).getD "") nldft₁)
    else
      .ok (structuredTail tr.1 tr.2 (extract_summary_metrics tr.1)
        ((extract_value_by_label tr.1).getD "") (structuredFirstPass tr.1).2)

theorem le_ratMax_left (a b : ℚ) : a ≤ ratMax a b := by
  rw [ratMax]
  split
  · assumption
  · exact le_refl a

theorem foldl_ratMax_spec :
    ∀ (l : List NldftData) (a : ℚ),
      a ≤ l.foldl (fun acc r => ratMax acc (volOf r)) a ∧
      (∀ y ∈ l, volOf y ≤ l.foldl (fun acc r => ratMax acc (volOf r)) a) ∧
      (l.foldl (fun acc r => ratMax acc (volOf r)) a = a ∨
        ∃ y ∈ l, l.foldl (fun acc r => ratMax acc (volOf r)) a = volOf y) := by
  intro l
  induction l with
  | nil => intro a; exact ⟨le_refl a, by simp, Or.inl rfl⟩
  | cons x xs ih =>
    intro a
    obtain ⟨h1, h2, h3⟩ := ih (ratMax a (volOf x))
    rw [List.foldl_cons]
    refine ⟨le_trans (le_ratMax_left a (volOf x)) h1, ?_, ?_⟩
    · intro y hy
      rcases List.mem_cons.mp hy with rfl | hy
      · exact le_trans (le_ratMax_right a (volOf y)) h1
      · exact h2 y hy
    · rcases h3 with h | ⟨y, hy, h⟩
      · rw [h, ratMax]
        split
        · exact Or.inr ⟨x, by simp, rfl⟩
        · exact Or.inl rfl
      · exact Or.inr ⟨y, by simp [hy], h⟩

theorem maxVol_spec (nldft : List NldftData) (hne : nldft ≠ []) :
    (∀ y ∈ nldft, volOf y ≤ maxVol nldft) ∧ ∃ y ∈ nldft, maxVol nldft = volOf y := by
  cases nldft with
  | nil => exact absurd rfl hne
  | cons x xs =>
    obtain ⟨h1, h2, h3⟩ := foldl_ratMax_spec xs (volOf x)
    rw [maxVol]
    refine ⟨?_, ?_⟩
    · intro y hy
      rcases List.mem_cons.mp hy with rfl | hy
      · exact h1
      · exact h2 y hy
    · rcases h3 with h | ⟨y, hy, h⟩
      · exact ⟨x, by simp, h⟩
      · exact ⟨y, by simp [hy], h⟩

theorem isEmpty_false_of_ne {α : Type} (l : List α) (h : l ≠ []) : l.isEmpty = false := by
  cases l with
  | nil => exact absurd rfl h
  | cons x xs => rfl

/-- C3: on a successful run — non-empty series, total-pore-volume string
present and parsing to T — both orchestrator tails produce
d10 = interpolate_diameter(T·0.1), d90 = interpolate_diameter(T·0.9),
ratio = d90/d10 when d10 ≠ 0 and 0 otherwise, and pore_volume_A equal to
the maximum pore_integral_volume over the series (an upper bound that is
attained). -/
theorem c3_percentile_and_max_formulas :
    (∀ (sp mp tpv apd mprob : String) (nldft : List NldftData) (T : ℚ),
        nldft ≠ [] → tpv ≠ "" → pyFloat? tpv = some T →
        (v1Tail sp mp tpv apd mprob nldft).success = true ∧
        (v1Tail sp mp tpv apd mprob nldft).d10 =
          interpolate_diameter (T * (1/10)) nldft ∧
        (v1Tail sp mp tpv apd mprob nldft).d90 =
          interpolate_diameter (T * (9/10)) nldft ∧
        (v1Tail sp mp tpv apd mprob nldft).d90_d10_ratio =
          (if (v1Tail sp mp tpv apd mprob nldft).d10 ≠ 0 then
            (v1Tail sp mp tpv apd mprob nldft).d90 / (v1Tail sp mp tpv apd mprob nldft).d10
           else 0) ∧
        (∀ x ∈ nldft, volOf x ≤ (v1Tail sp mp tpv apd mprob nldft).pore_volume_A) ∧
        (∃ x ∈ nldft, (v1Tail sp mp tpv apd mprob nldft).pore_volume_A = volOf x)) ∧
    (∀ (tables : List ExtractedTable) (raw : String) (summary : List (String × String))
        (mprob tpv : String) (nldft : List NldftData) (T : ℚ),
        tables ≠ [] → nldft ≠ [] → alookup summary "total_pore_vol" = some tpv →
        tpv ≠ "" → pyFloat? tpv = some T →
        (structuredTail tables raw summary mprob nldft).success = true ∧
        (structuredTail tables raw summary mprob nldft).d10 =
          interpolate_diameter (T * (1/10)) nldft ∧
        (structuredTail tables raw summary mprob nldft).d90 =
          interpolate_diameter (T * (9/10)) nldft ∧
        (structuredTail tables raw summary mprob nldft).d90_d10_ratio =
          (if (structuredTail tables raw summary mprob nldft).d10 ≠ 0 then
            (structuredTail tables raw summary mprob nldft).d90 /
              (structuredTail tables raw summary mprob nldft).d10
           else 0) ∧
        (∀ x ∈ nldft, volOf x ≤ (structuredTail tables raw summary mprob nldft).pore_volume_A) ∧
        (∃ x ∈ nldft,
          (structuredTail tables raw summary mprob nldft).pore_volume_A = volOf x)) := by
  constructor
  · intro sp mp tpv apd mprob nldft T hne htpv hT
    have hempty : nldft.isEmpty = false := isEmpty_false_of_ne nldft hne
    obtain ⟨hub, hmem⟩ := maxVol_spec nldft hne
    simp only [v1Tail, hempty, Bool.false_eq_true, if_false, if_neg htpv, hT,
      Bool.not_false, if_true]
    exact ⟨trivial, trivial, trivial, trivial, hub, hmem⟩
  · intro tables raw summary mprob tpv nldft T htab hne hlk htpv hT
    have hempty : nldft.isEmpty = false := isEmpty_false_of_ne nldft hne
    have htabempty : tables.isEmpty = false := isEmpty_false_of_ne tables htab
    obtain ⟨hub, hmem⟩ := maxVol_spec nldft hne
    simp only [structuredTail, hempty, htabempty, Bool.false_eq_true, if_false,
      hlk, if_neg htpv, hT]
    exact ⟨trivial, trivial, trivial, trivial, hub, hmem⟩

/-- Witness instantiating C3 on the concrete end-to-end inputs of the spec's
scenario: total pore volume "1.000", series with volumes 0.1/0.5/0.9 and
diameters 1/2/3 — yielding d10 = 1, d90 = 3 and pore_volume_A = 0.9. -/
theorem c3_percentile_and_max_formulas_witness :
    ((v1Tail "" "" "1.000" "" "" [⟨1, 1/10⟩, ⟨2, 1/2⟩, ⟨3, 9/10⟩]).success = true ∧
      (v1Tail "" "" "1.000" "" "" [⟨1, 1/10⟩, ⟨2, 1/2⟩, ⟨3, 9/10⟩]).d10 =
        interpolate_diameter (1 * (1/10)) [⟨1, 1/10⟩, ⟨2, 1/2⟩, ⟨3, 9/10⟩] ∧
      (v1Tail "" "" "1.000" "" "" [⟨1, 1/10⟩, ⟨2, 1/2⟩, ⟨3, 9/10⟩]).d90 =
        interpolate_diameter (1 * (9/10)) [⟨1, 1/10⟩, ⟨2, 1/2⟩, ⟨3, 9/10⟩] ∧
      (v1Tail "" "" "1.000" "" "" [⟨1, 1/10⟩, ⟨2, 1/2⟩, ⟨3, 9/10⟩]).d90_d10_ratio =
        (if (v1Tail "" "" "1.000" "" "" [⟨1, 1/10⟩, ⟨2, 1/2⟩, ⟨3, 9/10⟩]).d10 ≠ 0 then
          (v1Tail "" "" "1.000" "" "" [⟨1, 1/10⟩, ⟨2, 1/2⟩, ⟨3, 9/10⟩]).d90 /
            (v1Tail "" "" "1.000" "" "" [⟨1, 1/10⟩, ⟨2, 1/2⟩, ⟨3, 9/10⟩]).d10
         else 0) ∧
      (∀ x ∈ ([⟨1, 1/10⟩, ⟨2, 1/2⟩, ⟨3, 9/10⟩] : List NldftData),
        volOf x ≤ (v1Tail "" "" "1.000" "" "" [⟨1, 1/10⟩, ⟨2, 1/2⟩, ⟨3, 9/10⟩]).pore_volume_A) ∧
      (∃ x ∈ ([⟨1, 1/10⟩, ⟨2, 1/2⟩, ⟨3, 9/10⟩] : List NldftData),
        (v1Tail "" "" "1.000" "" "" [⟨1, 1/10⟩, ⟨2, 1/2⟩, ⟨3, 9/10⟩]).pore_volume_A = volOf x)) ∧
    (v1Tail "" "" "1.000" "" "" [⟨1, 1/10⟩, ⟨2, 1/2⟩, ⟨3, 9/10⟩]).d10 = 1 ∧
    (v1Tail "" "" "1.000" "" "" [⟨1, 1/10⟩, ⟨2, 1/2⟩, ⟨3, 9/10⟩]).d90 = 3 ∧
    (v1Tail "" "" "1.000" "" "" [⟨1, 1/10⟩, ⟨2, 1/2⟩, ⟨3, 9/10⟩]).d90_d10_ratio = 3 ∧
    (v1Tail "" "" "1.000" "" "" [⟨1, 1/10⟩, ⟨2, 1/2⟩, ⟨3, 9/10⟩]).pore_volume_A = 9/10 := by
  refine ⟨c3_percentile_and_max_formulas.1 "" "" "1.000" "" ""
    [⟨1, 1/10⟩, ⟨2, 1/2⟩, ⟨3, 9/10⟩] 1 (by decide) (by decide) (by decide),
    by decide, by decide, by decide, by decide⟩

/-- C8: for every run in which the most-probable-diameter scalar is absent
(empty string) or fails to parse as a float — and which triggers no hard
failure (non-empty series, parsable total pore volume) — both orchestrator
tails still succeed and all six threshold outputs are exactly 0. -/
theorem c8_graceful_degradation :
    (∀ (sp mp tpv apd mprob : String) (nldft : List NldftData) (T : ℚ),
        nldft ≠ [] → tpv ≠ "" → pyFloat? tpv = some T →
        (mprob = "" ∨ pyFloat? mprob = none) →
        (v1Tail sp mp tpv apd mprob nldft).success = true ∧
        (v1Tail sp mp tpv apd mprob nldft).d0_5 = 0 ∧
        (v1Tail sp mp tpv apd mprob nldft).volume_0_5D = 0 ∧
        (v1Tail sp mp tpv apd mprob nldft).less_than_0_5D = 0 ∧
        (v1Tail sp mp tpv apd mprob nldft).d1_5 = 0 ∧
        (v1Tail sp mp tpv apd mprob nldft).volume_1_5D = 0 ∧
        (v1Tail sp mp tpv apd mprob nldft).greater_than_1_5D = 0) ∧
    (∀ (tables : List ExtractedTable) (raw : String) (summary : List (String × String))
        (mprob tpv : String) (nldft : List NldftData) (T : ℚ),
        tables ≠ [] → nldft ≠ [] → alookup summary "total_pore_vol" = some tpv →
        tpv ≠ "" → pyFloat? tpv = some T →
        (mprob = "" ∨ pyFloat? mprob = none) →
        (structuredTail tables raw summary mprob nldft).success = true ∧
        (structuredTail tables raw summary mprob nldft).d0_5 = 0 ∧
        (structuredTail tables raw summary mprob nldft).volume_0_5D = 0 ∧
        (structuredTail tables raw summary mprob nldft).less_than_0_5D = 0 ∧
        (structuredTail tables raw summary mprob nldft).d1_5 = 0 ∧
        (structuredTail tables raw summary mprob nldft).volume_1_5D = 0 ∧
        (structuredTail tables raw summary mprob nldft).greater_than_1_5D = 0) := by
  constructor
  · intro sp mp tpv apd mprob nldft T hne htpv hT hmp
    have hempty : nldft.isEmpty = false := isEmpty_false_of_ne nldft hne
    simp only [v1Tail, hempty, Bool.false_eq_true, if_false, if_neg htpv, hT]
    rcases hmp with rfl | hval
    · simp
    · by_cases hms : mprob = ""
      · subst hms
        simp
      · simp [hval, hms]
  · intro tables raw summary mprob tpv nldft T htab hne hlk htpv hT hmp
    have hempty : nldft.isEmpty = false := isEmpty_false_of_ne nldft hne
    have htabempty : tables.isEmpty = false := isEmpty_false_of_ne tables htab
    simp only [structuredTail, hempty, htabempty, Bool.false_eq_true, if_false,
      hlk, if_neg htpv, hT]
    rcases hmp with rfl | hval
    · simp
    · by_cases hms : mprob = ""
      · subst hms
        simp
      · simp [hval, hms]

/-- Witness instantiating C8 at concrete inputs: a one-sample series, total
pore volume "1.000", and an absent most-probable scalar for the v1 tail
(resp. an unparseable one, "x", for the structured tail). -/
theorem c8_graceful_degradation_witness :
    ((v1Tail "" "" "1.000" "" "" [⟨1, 1/10⟩]).success = true ∧
      (v1Tail "" "" "1.000" "" "" [⟨1, 1/10⟩]).d0_5 = 0 ∧
      (v1Tail "" "" "1.000" "" "" [⟨1, 1/10⟩]).volume_0_5D = 0 ∧
      (v1Tail "" "" "1.000" "" "" [⟨1, 1/10⟩]).less_than_0_5D = 0 ∧
      (v1Tail "" "" "1.000" "" "" [⟨1, 1/10⟩]).d1_5 = 0 ∧
      (v1Tail "" "" "1.000" "" "" [⟨1, 1/10⟩]).volume_1_5D = 0 ∧
      (v1Tail "" "" "1.000" "" "" [⟨1, 1/10⟩]).greater_than_1_5D = 0) ∧
    ((structuredTail [gTable] "" [("total_pore_vol", "1.000")] "x" [⟨1, 1/10⟩]).success = true ∧
      (structuredTail [gTable] "" [("total_pore_vol", "1.000")] "x" [⟨1, 1/10⟩]).d0_5 = 0 ∧
      (structuredTail [gTable] "" [("total_pore_vol", "1.000")] "x" [⟨1, 1/10⟩]).volume_0_5D = 0 ∧
      (structuredTail [gTable] "" [("total_pore_vol", "1.000")] "x" [⟨1, 1/10⟩]).less_than_0_5D = 0 ∧
      (structuredTail [gTable] "" [("total_pore_vol", "1.000")] "x" [⟨1, 1/10⟩]).d1_5 = 0 ∧
      (structuredTail [gTable] "" [("total_pore_vol", "1.000")] "x" [⟨1, 1/10⟩]).volume_1_5D = 0 ∧
      (structuredTail [gTable] "" [("total_pore_vol", "1.000")] "x" [⟨1, 1/10⟩]).greater_than_1_5D
        = 0) := by
  constructor
  · exact c8_graceful_degradation.1 "" "" "1.000" "" "" [⟨1, 1/10⟩] 1
      (by decide) (by decide) (by decide) (Or.inl rfl)
  · exact c8_graceful_degradation.2 [gTable] "" [("total_pore_vol", "1.000")] "x" "1.000"
      [⟨1, 1/10⟩] 1 (by decide) (by decide) (by decide) (by decide) (by decide)
      (Or.inr (by decide))

theorem string_append_ne_empty (s t : String) (hs : s ≠ "") : s ++ t ≠ "" := by
  intro h
  apply hs
  have hd : s.data ++ t.data = ([] : List Char) := congrArg String.data h
  obtain ⟨h1, _⟩ := List.append_eq_nil.mp hd
  cases s with
  | mk data =>
    cases h1
    rfl

theorem ne_nil_of_isEmpty_false {α : Type} (l : List α) (h : ¬ l.isEmpty = true) : l ≠ [] := by
  cases l with
  | nil => exact absurd rfl h
  | cons x xs => exact List.cons_ne_nil x xs

theorem v1Tail_failed_message (sp mp tpv apd mprob : String) (nldft : List NldftData) :
    (v1Tail sp mp tpv apd mprob nldft).success = false →
    (v1Tail sp mp tpv apd mprob nldft).error_message ≠ "" := by
  intro h
  by_cases h₁ : nldft.isEmpty = true
  · simp only [v1Tail, h₁, if_true]
    decide
  · by_cases h₂ : tpv = ""
    · simp only [v1Tail, h₁, Bool.false_eq_true, if_false, h₂, if_true]
      decide
    · cases hpf : pyFloat? tpv with
      | none =>
        simp only [v1Tail, h₁, Bool.false_eq_true, if_false, if_neg h₂, hpf]
        decide
      | some T =>
        simp only [v1Tail, h₁, Bool.false_eq_true, if_false, if_neg h₂, hpf] at h
        exact absurd h (by simp)

theorem structuredTail_failed_message (tables : List ExtractedTable) (raw : String)
    (summary : List (String × String)) (mprob : String) (nldft : List NldftData) :
    (structuredTail tables raw summary mprob nldft).success = false →
    (structuredTail tables raw summary mprob nldft).error_message ≠ "" := by
  intro h
  by_cases h₁ : tables.isEmpty = true
  · simp only [structuredTail, h₁, if_true]
    decide
  · by_cases h₂ : nldft.isEmpty = true
    · simp only [structuredTail, h₁, Bool.false_eq_true, if_false, h₂, if_true]
      decide
    · cases hlk : alookup summary "total_pore_vol" with
      | none =>
        simp only [structuredTail, h₁, h₂, Bool.false_eq_true, if_false, hlk]
        decide
      | some tpv =>
        by_cases h₃ : tpv = ""
        · simp only [structuredTail, h₁, h₂, Bool.false_eq_true, if_false, hlk, h₃, if_true]
          decide
        · cases hpf : pyFloat? tpv with
          | none =>
            simp only [structuredTail, h₁, h₂, Bool.false_eq_true, if_false, hlk,
              if_neg h₃, hpf]
            decide
          | some T =>
            simp only [structuredTail, h₁, h₂, Bool.false_eq_true, if_false, hlk,
              if_neg h₃, hpf] at h
            exact absurd h (by simp)

/-- C9 (amended): the v1 orchestrator converts every failure into a result
with success = false and a non-empty descriptive message, never raising (its
whole body is guarded); the structured orchestrator does the same for every
caught failure, EXCEPT that when the fallback path re-runs table
reconstruction, a monotonicity ValueError raised by extract_nldft_data on
the non-empty fallback tables propagates uncaught to the caller — and that
is the only way the structured call can raise. -/
theorem c9_orchestrator_boundary_amended :
    (∀ raw : String, (process_pdf_text raw).success = false →
        (process_pdf_text raw).error_message ≠ "") ∧
    (∀ (c1 : Except String (List ExtractedTable × String))
        (c2 : Except String (List ExtractedTable)) (e : String),
        process_pdf_structured c1 c2 = Except.error e →
        ∃ fb, c2 = Except.ok fb ∧ fb ≠ [] ∧ extract_nldft_data fb = Except.error e) ∧
    (∀ (c1 : Except String (List ExtractedTable × String))
        (c2 : Except String (List ExtractedTable)) (r : ProcessResult),
        process_pdf_structured c1 c2 = Except.ok r →
        r.success = false → r.error_message ≠ "") := by
  refine ⟨?_, ?_, ?_⟩
  · intro raw h
    by_cases hstrip : pyStrip (clean_text raw) = ""
    · simp only [process_pdf_text, hstrip, if_true]
      decide
    · simp only [process_pdf_text, if_neg hstrip] at h ⊢
      exact v1Tail_failed_message _ _ _ _ _ _ h
  · intro c1 c2 e h
    cases c1 with
    | error exc => exact absurd h (by simp [process_pdf_structured])
    | ok tr =>
      by_cases hnf : structuredNeedsFallback tr.1 = true
      · cases c2 with
        | error exc =>
          simp only [process_pdf_structured, hnf, if_true] at h
          exact Except.noConfusion h
        | ok fb =>
          by_cases hfb : fb.isEmpty = true
          · simp only [process_pdf_structured, hnf, if_true, hfb] at h
            exact Except.noConfusion h
          · cases hext : extract_nldft_data fb with
            | error e' =>
              simp only [process_pdf_structured, hnf, if_true, if_neg hfb, hext,
                Except.error.injEq] at h
              exact ⟨fb, rfl, ne_nil_of_isEmpty_false fb hfb, by rw [hext, h]⟩
            | ok l =>
              simp only [process_pdf_structured, hnf, if_true, if_neg hfb, hext] at h
              exact Except.noConfusion h
      · simp only [process_pdf_structured, if_neg hnf] at h
        exact Except.noConfusion h
  · intro c1 c2 r h hfail
    have hmsg : "结构化解析失败：" ≠ ("" : String) := by decide
    cases c1 with
    | error exc =>
      simp only [process_pdf_structured, Except.ok.injEq] at h
      rw [← h] at hfail ⊢
      exact string_append_ne_empty _ _ hmsg
    | ok tr =>
      by_cases hnf : structuredNeedsFallback tr.1 = true
      · cases c2 with
        | error exc =>
          simp only [process_pdf_structured, hnf, if_true, Except.ok.injEq] at h
          rw [← h] at hfail ⊢
          exact string_append_ne_empty _ _ hmsg
        | ok fb =>
          by_cases hfb : fb.isEmpty = true
          · simp only [process_pdf_structured, hnf, if_true, hfb, Except.ok.injEq] at h
            rw [← h] at hfail ⊢
            exact structuredTail_failed_message _ _ _ _ _ hfail
          · cases hext : extract_nldft_data fb with
            | error e' =>
              simp only [process_pdf_structured, hnf, if_true, if_neg hfb, hext] at h
              exact Except.noConfusion h
            | ok l =>
              simp only [process_pdf_structured, hnf, if_true, if_neg hfb, hext,
                Except.ok.injEq] at h
              rw [← h] at hfail ⊢
              exact structuredTail_failed_message _ _ _ _ _ hfail
      · simp only [process_pdf_structured, if_neg hnf, Except.ok.injEq] at h
        rw [← h] at hfail ⊢
        exact structuredTail_failed_message _ _ _ _ _ hfail

/-- C9 counterexample: a concrete run of the structured orchestrator that
RAISES to the caller, contradicting the claim that the orchestrator call
never propagates a raw fault.  The prefiltered pass on the non-monotonic
grid `vTable` raises inside the guarded first reconstruction (caught,
triggering the fallback), and the unguarded fallback-path reconstruction of
the same tables raises again — uncaught. -/
theorem c9_orchestrator_boundary_counterexample :
    process_pdf_structured (Except.ok ([vTable], "")) (Except.ok [vTable]) =
      Except.error monoErrMsg := by
  decide

/-- Witness instantiating C9 (amended): part one at the empty text (which
fails with a message), part two at the concrete leaking inputs. -/
theorem c9_orchestrator_boundary_witness :
    (process_pdf_text "").error_message ≠ "" ∧
    ∃ fb, (Except.ok [vTable] : Except String (List ExtractedTable)) = Except.ok fb ∧
      fb ≠ [] ∧ extract_nldft_data fb = Except.error monoErrMsg := by
  constructor
  · exact c9_orchestrator_boundary_amended.1 "" (by decide)
  · exact c9_orchestrator_boundary_amended.2.1 (Except.ok ([vTable], ""))
      (Except.ok [vTable]) monoErrMsg (by decide)

end DBro
